import Mathlib

/-!
Verification development for the Tabular ML plugin of the ml_server_all_in_one
repository.  The Python sources under src/plugins/tabular_ml are shallowly
embedded: dataframes become lists of typed columns over rational-valued cells,
stateful store operations become explicit state passing, and fallible
operations return Except values.  External collaborators (the sklearn
estimators, scalers and the seeded shuffling inside train_test_split) are
modelled as oracle inputs, mirroring the spec, which treats them as library
calls specified only at their boundary.

Notes on the embedding of numeric data: pandas float columns are modelled as
optional rationals (none = NaN/missing).  A z-score comparison |z| > t with
t > 0 and std > 0 is equivalent to (x - mean)^2 > t^2 * var, which keeps all
arithmetic inside the rationals (population variance, ddof=0, as in the
source).  String-to-number coercion of pd.to_numeric and the exact float
rendering of str() are outside the model; numeric data is carried by the
num constructor directly.  Error messages follow the source with quote
characters omitted.
-/

namespace TabML

/-- One cell of a dataframe: a (finite) numeric value, a string, or a
missing value (None/NaN).  `[src core]` -/
inductive Cell where
  | num (q : ℚ)
  | str (s : String)
  | null
deriving DecidableEq, Repr

/-- Column dtype tag, the information pandas keeps per column and that
select_dtypes / is_numeric_dtype consult. -/
inductive Dtype where
  | numeric
  | object
deriving DecidableEq, Repr

/-- A named, dtype-tagged column. -/
structure Column where
  name : String
  dtype : Dtype
  cells : List Cell
deriving DecidableEq, Repr

/-- A dataframe: columns plus the row count (pandas shape[0]).  Well-formed
frames have every column of length nrows (WF below). -/
structure DataFrame where
  cols : List Column
  nrows : ℕ
deriving DecidableEq, Repr

/-- Well-formedness: each column holds exactly nrows cells. -/
def DataFrame.WF (df : DataFrame) : Prop :=
  ∀ c ∈ df.cols, c.cells.length = df.nrows

/-- Errors raised by the core module: TabularError and its subclass
ModelNotReadyError.  `[src core: TabularError, ModelNotReadyError]` -/
inductive Err where
  | tabular (msg : String)
  | modelNotReady (msg : String)
deriving DecidableEq, Repr

/-- Column lookup by name (pandas df[column] / column in df.columns). -/
def DataFrame.findCol (df : DataFrame) (name : String) : Option Column :=
  df.cols.find? (fun c => c.name == name)

/-- Membership test, column in df.columns. -/
def DataFrame.hasCol (df : DataFrame) (name : String) : Bool :=
  (df.findCol name).isSome

/-- The cells of a named column (empty when absent; callers check first). -/
def DataFrame.colCells (df : DataFrame) (name : String) : List Cell :=
  ((df.findCol name).map Column.cells).getD []

/-- pd.to_numeric(series, errors=coerce) on one cell: numbers survive,
everything else becomes NaN (numeric-looking strings are outside the
model, see the header note). -/
def toNumeric : Cell → Option ℚ
  | Cell.num q => some q
  | Cell.str _ => none
  | Cell.null => none

/-- The non-missing numeric values of a column after coercion (what
pandas skipna aggregations such as mean/std see). -/
def presentVals (cells : List Cell) : List ℚ :=
  cells.filterMap toNumeric

/-- pandas df.empty: True when the frame has zero size (no rows or no
columns). -/
def DataFrame.isEmptyDF (df : DataFrame) : Bool :=
  df.nrows == 0 || df.cols.isEmpty

/-- Numeric-dtype column names in frame order
(df.select_dtypes(include=[number]).columns). -/
def DataFrame.numericDtypeCols (df : DataFrame) : List String :=
  (df.cols.filter (fun c => c.dtype == Dtype.numeric)).map Column.name

/-- isna count of a column: missing cells. -/
def missingCount (cells : List Cell) : ℕ :=
  cells.countP (fun c => c == Cell.null)

/-- DatasetProfile, restricted to the fields the claims mention: shape and
per-column (name, missing, is_numeric) info.  `[src core: build_profile]`
Preview rows and numeric summary statistics are carried by the source
profile as well but play no role in any claim. -/
structure Profile where
  shape : ℕ × ℕ
  columnsInfo : List (String × ℕ × Bool)
deriving DecidableEq, Repr

/-- build_profile: fails when the dataframe is empty, else reports shape and
column metadata.  `[src core 153-193]` -/
def buildProfile (df : DataFrame) : Except Err Profile :=
  if df.isEmptyDF then
    .error (.tabular "Dataset must contain rows")
  else
    .ok { shape := (df.nrows, df.cols.length)
          columnsInfo := df.cols.map (fun c =>
            (c.name, missingCount c.cells, c.dtype == Dtype.numeric)) }

/-! ## Outlier engine (core module, z-score) -/

/-- OutlierReport.  `[src core 71-77]` -/
structure OutlierReport where
  method : String
  inspectedColumns : List String
  threshold : ℚ
  totalOutliers : ℕ
  sampleIndices : List ℕ
deriving DecidableEq, Repr

/-- _numeric_columns: resolve the inspected column list.  An explicitly
given empty list is falsy in Python and behaves like None (auto-detect).
`[src core 285-301]` -/
def numericColumnsOf (df : DataFrame) (columns : Option (List String)) :
    Except Err (List String) :=
  match columns with
  | some cs =>
    if cs.isEmpty then
      let detected := df.numericDtypeCols
      if detected.isEmpty then
        .error (.tabular "Dataset has no numeric columns available")
      else .ok detected
    else
      let missing := cs.filter (fun c => !(df.hasCol c))
      if !missing.isEmpty then
        .error (.tabular ("Columns not found: " ++ String.intercalate ", " missing))
      else
        let numeric := cs.filter (fun c =>
          ((df.findCol c).map (fun col => col.dtype == Dtype.numeric)).getD false)
        if numeric.isEmpty then
          .error (.tabular "Selected columns do not contain numeric values")
        else .ok numeric
  | none =>
    let detected := df.numericDtypeCols
    if detected.isEmpty then
      .error (.tabular "Dataset has no numeric columns available")
    else .ok detected

/-- Row i of a column is flagged by the z-score test: with population mean
mu and variance v over the non-missing values, |x - mu| / sqrt v > t is
evaluated as (x - mu)^2 > t^2 * v (valid since the caller guarantees
t > 0).  A zero (or undefined, all-missing) variance contributes no
constraint, matching the std == 0 or NaN branch that zeroes the z column;
a missing cell yields a NaN z-score, which compares False.
`[src core 316-324 and 349-357, identical formulas at both sites]` -/
def zOutlierAt (cells : List Cell) (t : ℚ) (i : ℕ) : Bool :=
  let vs := presentVals cells
  let n : ℚ := vs.length
  let mu := vs.sum / n
  let v := (vs.map (fun x => (x - mu) ^ 2)).sum / n
  if v = 0 then false
  else
    match cells.getD i Cell.null with
    | Cell.num x => decide ((x - mu) ^ 2 > t ^ 2 * v)
    | _ => false

/-- A row is an outlier when any inspected column flags it
((z_scores.abs() > threshold).any(axis=1)). -/
def rowIsOutlier (df : DataFrame) (ncols : List String) (t : ℚ) (i : ℕ) : Bool :=
  ncols.any (fun c => zOutlierAt (df.colCells c) t i)

/-- detect_outliers: validates the threshold, resolves numeric columns,
re-raises the _to_numeric_series failure on an all-missing column, then
counts the rows flagged by the z-score mask.  The dataframe index is the
default RangeIndex 0..nrows-1.  `[src core 304-332]` -/
def detectOutliers (df : DataFrame) (columns : Option (List String))
    (threshold : ℚ) : Except Err OutlierReport :=
  if threshold ≤ 0 then
    .error (.tabular "Outlier threshold must be a positive number")
  else
    match numericColumnsOf df columns with
    | .error e => .error e
    | .ok ncols =>
      match ncols.find? (fun c => (presentVals (df.colCells c)).isEmpty) with
      | some c =>
        .error (.tabular ("Column " ++ c ++ " does not contain numeric values"))
      | none =>
        let indices := (List.range df.nrows).filter (rowIsOutlier df ncols threshold)
        .ok { method := "zscore"
              inspectedColumns := ncols
              threshold := threshold
              totalOutliers := indices.length
              sampleIndices := indices.take 20 }

/-- Drop the rows flagged by the predicate, re-indexing
(df.loc[~mask].reset_index(drop=True)). -/
def dropRows (df : DataFrame) (out : ℕ → Bool) : DataFrame :=
  { cols := df.cols.map (fun c =>
      { c with cells := (List.range df.nrows).filterMap (fun i =>
          if out i then none else some (c.cells.getD i Cell.null)) })
    nrows := (List.range df.nrows).countP (fun i => !out i) }

/-- remove_outliers, including the store commit: the first component is
the dataset held by the store after the call.  The source fetches the
dataframe, runs detect_outliers, recomputes the same z-score mask from the
cached parameters, commits the cleaned frame with _STORE.update and only
then calls build_profile, which raises on an empty result; hence the
cleaned frame is committed even when the profile step fails.
`[src core 335-360]` -/
def removeOutliersOp (df : DataFrame) (columns : Option (List String))
    (threshold : ℚ) : DataFrame × Except Err Profile :=
  match detectOutliers df columns threshold with
  | .error e => (df, .error e)
  | .ok report =>
    if report.inspectedColumns.isEmpty then
      (df, buildProfile df)
    else
      let cleaned := dropRows df (rowIsOutlier df report.inspectedColumns report.threshold)
      (cleaned, buildProfile cleaned)

/-! ## Row filtering (core module) -/

/-- A filter rule as received from JSON: rule.get(column) may be absent,
the operator defaults to eq, and the value is a scalar or a list.
`[src core 381-405]` -/
inductive FilterVal where
  | scalar (c : Cell)
  | listV (cs : List Cell)
deriving DecidableEq, Repr

structure FilterRule where
  column : Option String
  operator : String
  value : FilterVal
deriving DecidableEq, Repr

/-- Elementwise equality as pandas series == scalar: missing values and
type mismatches compare False. -/
def cellEq : Cell → Cell → Bool
  | Cell.num a, Cell.num b => a == b
  | Cell.str a, Cell.str b => a == b
  | _, _ => false

/-- Elementwise order comparison; NaN and cross-type comparisons are
False (the TypeError pandas raises on ordered str/number comparisons is
outside the model). -/
def cellLt : Cell → Cell → Bool
  | Cell.num a, Cell.num b => decide (a < b)
  | Cell.str a, Cell.str b => decide (a < b)
  | _, _ => false

def cellLe : Cell → Cell → Bool
  | Cell.num a, Cell.num b => decide (a ≤ b)
  | Cell.str a, Cell.str b => decide (a ≤ b)
  | _, _ => false

/-- str() rendering used by the contains operator after astype(str); the
exact float formatting of Python is immaterial to the claims and toString
of the rational stands in for it. -/
def cellRender : Cell → String
  | Cell.num q => toString q
  | Cell.str s => s
  | Cell.null => "None"

def filterValRender : FilterVal → String
  | FilterVal.scalar c => cellRender c
  | FilterVal.listV cs => String.intercalate ", " (cs.map cellRender)

/-- Literal substring test on char lists (series.str.contains with a
pattern free of regex metacharacters). -/
def charPrefixAt : List Char → List Char → Bool
  | _, [] => true
  | [], _ :: _ => false
  | c :: cs, p :: ps => c == p && charPrefixAt cs ps

def charHasSub : List Char → List Char → Bool
  | _, [] => true
  | [], _ :: _ => false
  | c :: cs, p => charPrefixAt (c :: cs) p || charHasSub cs p

def strHasSub (s pat : String) : Bool :=
  charHasSub s.data pat.data

/-- The in operator wraps a non-iterable value in a singleton list.
`[src core 373-377]` -/
def filterValAsList : FilterVal → List Cell
  | FilterVal.scalar c => [c]
  | FilterVal.listV cs => cs

/-- The scalar payload used by the comparison operators (a list value fed
to a scalar operator is outside the model). -/
def filterValScalar : FilterVal → Cell
  | FilterVal.scalar c => c
  | FilterVal.listV _ => Cell.null

/-- The per-row comparator for one rule (SUPPORTED_FILTER_OPERATORS).  The
float coercion of the rule value on numeric columns is the identity on the
modelled values.  isin matches missing values by identity, unlike ==.
`[src core 363-378]` -/
def evalOperator (op : String) (v : FilterVal) (cell : Cell) : Bool :=
  if op == "eq" then cellEq cell (filterValScalar v)
  else if op == "ne" then !cellEq cell (filterValScalar v)
  else if op == "gt" then cellLt (filterValScalar v) cell
  else if op == "gte" then cellLe (filterValScalar v) cell
  else if op == "lt" then cellLt cell (filterValScalar v)
  else if op == "lte" then cellLe cell (filterValScalar v)
  else if op == "contains" then strHasSub (cellRender cell) (filterValRender v)
  else (filterValAsList v).any (fun b => cell == b)

def supportedOperators : List String :=
  ["eq", "ne", "gt", "gte", "lt", "lte", "contains", "in"]

/-- Validate one rule against the frame and produce its row predicate.
`[src core 389-405]` -/
def ruleMask (df : DataFrame) (rule : FilterRule) : Except Err (ℕ → Bool) :=
  match rule.column with
  | none => .error (.tabular "Column None not found in dataset")
  | some cname =>
    match df.findCol cname with
    | none => .error (.tabular ("Column " ++ cname ++ " not found in dataset"))
    | some col =>
      if !(supportedOperators.contains rule.operator) then
        .error (.tabular ("Unsupported operator " ++ rule.operator))
      else
        .ok (fun i => evalOperator rule.operator rule.value (col.cells.getD i Cell.null))

/-- Sequential conjunction of the rule masks (mask &= comparator), raising
at the first invalid rule. -/
def rulesMask (df : DataFrame) : List FilterRule → Except Err (ℕ → Bool)
  | [] => .ok (fun _ => true)
  | r :: rs => do
    let m ← ruleMask df r
    let ms ← rulesMask df rs
    .ok (fun i => m i && ms i)

/-- filter_rows, including the store commit (first component = dataset held
by the store after the call).  The emptiness of the filtered frame is
checked before the store update, so a filter that would remove every row
fails and leaves the store untouched.  `[src core 381-415]` -/
def filterRowsOp (df : DataFrame) (rules : List FilterRule) :
    DataFrame × Except Err (Profile × ℕ) :=
  if rules.isEmpty then
    (df, .error (.tabular "Provide at least one filter rule"))
  else
    match rulesMask df rules with
    | .error e => (df, .error e)
    | .ok keep =>
      let filtered := dropRows df (fun i => !keep i)
      if filtered.isEmptyDF then
        (df, .error (.tabular "Filters removed all rows. Adjust the criteria."))
      else
        (filtered, (buildProfile filtered).map (fun p => (p, df.nrows - filtered.nrows)))

/-! ## Counting lemmas shared by the outlier/filter theorems -/

theorem countP_not_add_countP (p : ℕ → Bool) (l : List ℕ) :
    l.countP (fun i => !p i) + l.countP p = l.length := by
  induction l with
  | nil => simp
  | cons a l ih =>
    by_cases h : p a <;> simp [List.countP_cons, h] <;> omega

theorem dropRows_nrows (df : DataFrame) (out : ℕ → Bool) :
    (dropRows df out).nrows = df.nrows - (List.range df.nrows).countP out := by
  have h := countP_not_add_countP out (List.range df.nrows)
  have hlen : (List.range df.nrows).length = df.nrows := List.length_range df.nrows
  simp only [dropRows]
  omega

theorem filter_length_eq_countP (p : ℕ → Bool) (l : List ℕ) :
    (l.filter p).length = l.countP p := by
  induction l with
  | nil => simp
  | cons a l ih =>
    by_cases h : p a <;> simp [List.filter_cons, h, List.countP_cons, ih]

theorem numericColumnsOf_ok_ne_nil {df : DataFrame} {cols : Option (List String)}
    {l : List String} (h : numericColumnsOf df cols = .ok l) : l ≠ [] := by
  unfold numericColumnsOf at h
  rcases cols with _ | cs
  · by_cases hd : df.numericDtypeCols.isEmpty <;> simp [hd] at h
    · rcases h with ⟨h⟩
      exact fun hnil => by simp [hnil] at hd
  · by_cases he : cs.isEmpty
    · simp only [he, if_true] at h
      by_cases hd : df.numericDtypeCols.isEmpty <;> simp [hd] at h
      rcases h with ⟨h⟩
      exact fun hnil => by simp [hnil] at hd
    · simp only [he, if_false] at h
      by_cases hm : (cs.filter (fun c => !(df.hasCol c))).isEmpty
      · simp only [hm, Bool.not_true, Bool.false_eq_true, if_false] at h
        by_cases hn : (cs.filter (fun c =>
            ((df.findCol c).map (fun col => col.dtype == Dtype.numeric)).getD false)).isEmpty <;>
          simp [hn] at h
        rcases h with ⟨h⟩
        exact fun hnil => by simp [hnil] at hn
      · simp [hm] at h

/-! ## Claim C1 and C5 theorems (core module) -/

/-- Counterexample dataset for C1: a single numeric column [0, 5, 0].
With threshold 1/2 every row has |z| > 1/2, so an outlier drop removes
every row. -/
def c1df : DataFrame :=
  { cols := [{ name := "value", dtype := Dtype.numeric,
               cells := [Cell.num 0, Cell.num 5, Cell.num 0] }]
    nrows := 3 }

/-- C1 counterexample: the claim says any mutating operation that would
leave zero rows fails with the stored dataset left unchanged.  But
remove_outliers on the dataset [0, 5, 0] with threshold 1/2 commits the
emptied dataframe to the store (the update happens before build_profile
raises), so after the failing call the committed dataset has zero rows. -/
theorem c1_remove_outliers_commits_empty :
    (removeOutliersOp c1df none (1/2)).1.nrows = 0 ∧
    c1df.nrows = 3 ∧
    (removeOutliersOp c1df none (1/2)).2 =
      .error (.tabular "Dataset must contain rows") := by
  refine ⟨?_, rfl, ?_⟩ <;>
    norm_num [removeOutliersOp, detectOutliers, numericColumnsOf,
      DataFrame.numericDtypeCols, DataFrame.colCells, DataFrame.findCol,
      rowIsOutlier, zOutlierAt, presentVals, toNumeric, dropRows,
      buildProfile, DataFrame.isEmptyDF, c1df, List.filterMap, List.filter,
      List.range_succ, List.countP, List.countP.go, List.find?, List.any]

/-- C1 amended: filter_rows does maintain the invariant: when the result
is an error the stored dataset is unchanged, and when it succeeds the
committed dataset is non-empty.  (remove_outliers does not, see the
counterexample.) -/
theorem filter_rows_preserves_nonempty (df : DataFrame) (rules : List FilterRule) :
    (∀ e, (filterRowsOp df rules).2 = .error e → (filterRowsOp df rules).1 = df) ∧
    (∀ p, (filterRowsOp df rules).2 = .ok p → 0 < (filterRowsOp df rules).1.nrows) := by
  unfold filterRowsOp
  by_cases hr : rules.isEmpty
  · simp [hr]
  · simp only [hr, Bool.false_eq_true, if_false]
    cases hm : rulesMask df rules with
    | error e => simp
    | ok keep =>
      by_cases he : (dropRows df (fun i => !keep i)).isEmptyDF
      · simp [he]
      · have hok : buildProfile (dropRows df (fun i => !keep i)) =
            .ok { shape := ((dropRows df (fun i => !keep i)).nrows,
                            (dropRows df (fun i => !keep i)).cols.length)
                  columnsInfo := (dropRows df (fun i => !keep i)).cols.map (fun c =>
                    (c.name, missingCount c.cells, c.dtype == Dtype.numeric)) } := by
          unfold buildProfile
          simp [he]
        have hn : (dropRows df (fun i => !keep i)).nrows ≠ 0 := by
          intro h0
          simp [DataFrame.isEmptyDF, h0] at he
        simp only [he, Bool.false_eq_true, if_false, hok, Except.map]
        constructor
        · intro e h
          simp at h
        · intro p _
          omega

/-- Concrete dataframe used by witnesses of the filtering theorems. -/
def wdf : DataFrame :=
  { cols := [{ name := "label", dtype := Dtype.object,
               cells := [Cell.str "a", Cell.str "b"] }]
    nrows := 2 }

/-- Witness for the C1 amended theorem: with no rules the call fails and
the store is unchanged; with an eq rule keeping one row the call succeeds
and the committed dataset is non-empty. -/
theorem filter_rows_preserves_nonempty_witness :
    ((filterRowsOp wdf []).1 = wdf) ∧
    (0 < (filterRowsOp wdf
      [{ column := some "label", operator := "eq",
         value := FilterVal.scalar (Cell.str "a") }]).1.nrows) := by
  constructor
  · exact (filter_rows_preserves_nonempty wdf []).1
      (.tabular "Provide at least one filter rule") rfl
  · exact (filter_rows_preserves_nonempty wdf
      [{ column := some "label", operator := "eq",
         value := FilterVal.scalar (Cell.str "a") }]).2
      ({ shape := (1, 1), columnsInfo := [("label", 0, false)] }, 1) rfl

/-- Helper for C5 (core half): when detect_outliers succeeds,
remove_outliers (same columns/threshold, no intervening mutation) commits
a dataset with original row count minus reported total_outliers rows. -/
theorem core_detect_remove_aux (df : DataFrame)
    (columns : Option (List String)) (t : ℚ) (report : OutlierReport)
    (hdet : detectOutliers df columns t = .ok report) :
    (removeOutliersOp df columns t).1.nrows = df.nrows - report.totalOutliers ∧
    report.totalOutliers ≤ df.nrows := by
  have h := hdet
  unfold detectOutliers at h
  by_cases ht : t ≤ 0
  · simp [ht] at h
  · simp only [ht, if_false] at h
    cases hnc : numericColumnsOf df columns with
    | error e => rw [hnc] at h; cases h
    | ok ncols =>
      rw [hnc] at h
      dsimp only at h
      cases hf : ncols.find? (fun c => (presentVals (df.colCells c)).isEmpty) with
      | some c => rw [hf] at h; cases h
      | none =>
        rw [hf] at h
        injection h with h
        have hne : ncols ≠ [] := numericColumnsOf_ok_ne_nil hnc
        have hcols : report.inspectedColumns = ncols := by rw [← h]
        have hthr : report.threshold = t := by rw [← h]
        have htot : report.totalOutliers =
            (List.range df.nrows).countP (rowIsOutlier df ncols t) := by
          rw [← h]
          exact filter_length_eq_countP _ _
        have hremove : (removeOutliersOp df columns t).1 =
            dropRows df (rowIsOutlier df ncols t) := by
          unfold removeOutliersOp
          rw [hdet]
          have hni : ncols.isEmpty = false := by
            cases ncols with
            | nil => exact absurd rfl hne
            | cons a l => rfl
          simp only [hcols, hthr, hni, Bool.false_eq_true, if_false]
        constructor
        · rw [hremove, dropRows_nrows, htot]
        · rw [htot]
          have := List.countP_le_length (p := rowIsOutlier df ncols t)
            (l := List.range df.nrows)
          simpa using this

/-! ## Outlier engine (backend module, src/plugins/tabular_ml/backend/outliers.py) -/

/-- Errors of the backend modules: plain ValueError / KeyError. -/
inductive ErrB where
  | valueE (msg : String)
  | keyE (msg : String)
deriving DecidableEq, Repr

/-- OutlierParams (pydantic schema defaults k=1.5, z=3.0,
contamination=0.05).  `[src backend/schemas.py 41-44]` -/
structure OutlierParamsB where
  k : Option ℚ := some (3/2)
  z : Option ℚ := some 3
  contamination : Option ℚ := some (1/20)
deriving DecidableEq, Repr

/-- Python x or d on an optional float: None and 0.0 are falsy.
`[src backend/outliers.py 68, 71, 73]` -/
def orDefault (v : Option ℚ) (d : ℚ) : ℚ :=
  match v with
  | some q => if q = 0 then d else q
  | none => d

/-- The cached outlier state on a session (mask list plus provenance).
`[src backend/outliers.py 86-90]` -/
structure OutlierStateB where
  mask : List Bool
  method : String
  params : OutlierParamsB
deriving DecidableEq, Repr

/-- SessionData restricted to the fields the outlier engine touches.
`[src backend/utils.py 22-34]` -/
structure SessionDataB where
  dataframe : DataFrame
  outlierState : Option OutlierStateB
deriving DecidableEq, Repr

structure OutlierComputeRequestB where
  method : String
  params : OutlierParamsB
deriving DecidableEq, Repr

structure OutlierApplyRequestB where
  action : String
  params : OutlierParamsB
deriving DecidableEq, Repr

/-- Ascending insertion sort on rationals (order produced by
sorting the non-missing values for quantile interpolation). -/
def insertAsc (x : ℚ) : List ℚ → List ℚ
  | [] => [x]
  | y :: ys => if x ≤ y then x :: y :: ys else y :: insertAsc x ys

def sortAsc (l : List ℚ) : List ℚ :=
  l.foldr insertAsc []

/-- pandas Series.quantile with linear interpolation over the non-missing
values; none models the NaN result on an all-missing column. -/
def quantileLinear (vs : List ℚ) (q : ℚ) : Option ℚ :=
  let s := sortAsc vs
  let n := s.length
  if n = 0 then none
  else
    let h : ℚ := q * ((n : ℚ) - 1)
    let lo := (Int.floor h).toNat
    let hi := (-(Int.floor (-h))).toNat
    let a := s.getD lo 0
    let b := s.getD hi 0
    some (a + (h - (lo : ℚ)) * (b - a))

/-- _iqr_mask, one column at row i: within Q1 - k IQR and Q3 + k IQR.
Comparisons involving NaN (missing value, or NaN bounds of an all-missing
column) evaluate False; the boolean frame carries no NaN afterwards so the
fillna(True) in the source does not alter it.  `[src backend/outliers.py 30-39]` -/
def iqrWithin (cells : List Cell) (k : ℚ) (i : ℕ) : Bool :=
  let vs := presentVals cells
  match quantileLinear vs (1/4), quantileLinear vs (3/4) with
  | some q1, some q3 =>
    match cells.getD i Cell.null with
    | Cell.num x =>
      decide (q1 - k * (q3 - q1) ≤ x) && decide (x ≤ q3 + k * (q3 - q1))
    | _ => false
  | _, _ => false

/-- _zscore_mask, one column at row i: |z| ≤ threshold with population
std; a zero std is replaced by NaN so every comparison on that column is
False, and missing values compare False as well.
`[src backend/outliers.py 42-49]` -/
def zscoreWithin (cells : List Cell) (t : ℚ) (i : ℕ) : Bool :=
  let vs := presentVals cells
  let n : ℚ := vs.length
  let mu := vs.sum / n
  let v := (vs.map (fun x => (x - mu) ^ 2)).sum / n
  if v = 0 then false
  else
    match cells.getD i Cell.null with
    | Cell.num x => decide ((x - mu) ^ 2 ≤ t ^ 2 * v)
    | _ => false

/-- _compute_mask: dispatch on the method; the Isolation Forest
predictions are an external library output and enter as the oracle list
ifp (indexed per row).  `[src backend/outliers.py 52-74]` -/
def computeMaskB (df : DataFrame) (req : OutlierComputeRequestB)
    (ifp : List Bool) : Except ErrB (List Bool) :=
  let numeric := df.cols.filter (fun c => c.dtype == Dtype.numeric)
  if numeric.isEmpty then
    .error (.valueE "Dataset does not contain numeric columns for outlier detection")
  else if req.method == "iqr" then
    let k := orDefault req.params.k (3/2)
    .ok ((List.range df.nrows).map (fun i => numeric.all (fun c => iqrWithin c.cells k i)))
  else if req.method == "zscore" then
    let t := orDefault req.params.z 3
    .ok ((List.range df.nrows).map (fun i => numeric.all (fun c => zscoreWithin c.cells t i)))
  else
    .ok ((List.range df.nrows).map (fun i => ifp.getD i false))

structure MaskStatsB where
  totalRows : ℕ
  outlierRows : ℕ
  keptRows : ℕ
deriving DecidableEq, Repr

structure OutlierComputationB where
  mask : List Bool
  indicesRemoved : List ℕ
  stats : MaskStatsB
deriving DecidableEq, Repr

/-- compute_outliers: computes the mask, reports stats and caches the mask
(with method and params) on the session.  `[src backend/outliers.py 77-91]` -/
def computeOutliersB (s : SessionDataB) (req : OutlierComputeRequestB)
    (ifp : List Bool) : Except ErrB (SessionDataB × OutlierComputationB) :=
  match computeMaskB s.dataframe req ifp with
  | .error e => .error e
  | .ok mask =>
    .ok ({ s with outlierState := some { mask := mask, method := req.method, params := req.params } },
         { mask := mask
           indicesRemoved := (List.range s.dataframe.nrows).filter (fun i => !(mask.getD i false))
           stats := { totalRows := s.dataframe.nrows
                      outlierRows := mask.countP (fun b => !b)
                      keptRows := mask.countP (fun b => b) } })

/-- Result envelope of apply_outliers; describe_columns output is carried
as the shape (its per-column metadata plays no role in any claim). -/
inductive ApplyResultB where
  | resetR (rows : ℕ)
  | maskR (maskedRows unmaskedRows : ℕ)
  | dropR (shape : ℕ × ℕ)
  | winsorR (shape : ℕ × ℕ)
deriving DecidableEq, Repr

/-- Clip a cell into the optional IQR bounds (NaN bounds clip nothing). -/
def clipCell (lo hi : Option ℚ) : Cell → Cell
  | Cell.num x =>
    let low := match lo with | some a => max x a | none => x
    Cell.num (match hi with | some b => min low b | none => low)
  | c => c

/-- The winsorize branch: clip every numeric column to its IQR bounds. -/
def winsorizeDF (df : DataFrame) (k : ℚ) : DataFrame :=
  { df with cols := df.cols.map (fun c =>
      if c.dtype == Dtype.numeric then
        let vs := presentVals c.cells
        let bounds := match quantileLinear vs (1/4), quantileLinear vs (3/4) with
          | some q1, some q3 => (some (q1 - k * (q3 - q1)), some (q3 + k * (q3 - q1)))
          | _, _ => (none, none)
        { c with cells := c.cells.map (clipCell bounds.1 bounds.2) }
      else c) }

/-- apply_outliers: reset clears the cached mask; mask/drop/winsorize
require a cached mask; drop keeps the rows the cached mask marks as
inliers and re-indexes.  `[src backend/outliers.py 94-135]` -/
def applyOutliersB (s : SessionDataB) (req : OutlierApplyRequestB) :
    Except ErrB (SessionDataB × ApplyResultB) :=
  if req.action == "reset" then
    .ok ({ s with outlierState := none }, .resetR s.dataframe.nrows)
  else
    match s.outlierState with
    | none => .error (.valueE "Outlier mask has not been computed")
    | some st =>
      if req.action == "mask" then
        .ok (s, .maskR (st.mask.countP (fun b => !b)) (st.mask.countP (fun b => b)))
      else if req.action == "drop" then
        let kept := dropRows s.dataframe (fun i => !(st.mask.getD i false))
        .ok ({ s with dataframe := kept }, .dropR (kept.nrows, kept.cols.length))
      else if req.action == "winsorize" then
        let clipped := winsorizeDF s.dataframe (orDefault req.params.k (3/2))
        .ok ({ s with dataframe := clipped }, .winsorR (clipped.nrows, clipped.cols.length))
      else
        .error (.valueE ("Unsupported action: " ++ req.action))

theorem computeMaskB_length {df : DataFrame} {req : OutlierComputeRequestB}
    {ifp : List Bool} {mask : List Bool}
    (h : computeMaskB df req ifp = .ok mask) : mask.length = df.nrows := by
  unfold computeMaskB at h
  by_cases he : (df.cols.filter (fun c => c.dtype == Dtype.numeric)).isEmpty <;>
    simp only [he, if_true, if_false, Bool.false_eq_true] at h
  · cases h
  · by_cases h1 : req.method == "iqr" <;> simp only [h1, if_true, if_false, Bool.false_eq_true] at h
    · rcases h with ⟨h⟩
      simp
    · by_cases h2 : req.method == "zscore" <;>
        simp only [h2, if_true, if_false, Bool.false_eq_true] at h <;>
        rcases h with ⟨h⟩ <;> simp

theorem countP_range_getD (mask : List Bool) (p : Bool → Bool) :
    (List.range mask.length).countP (fun i => p (mask.getD i false)) =
      mask.countP p := by
  induction mask with
  | nil => simp
  | cons b bs ih =>
    have hr : List.range (bs.length + 1) = 0 :: (List.range bs.length).map Nat.succ :=
      List.range_succ_eq_map bs.length
    simp only [List.length_cons, hr, List.countP_cons, List.countP_map]
    have : ((List.range bs.length).countP
        ((fun i => p ((b :: bs).getD i false)) ∘ Nat.succ)) =
        (List.range bs.length).countP (fun i => p (bs.getD i false)) := by
      apply List.countP_congr
      intro i _
      rfl
    rw [this, ih]
    by_cases hp : p b <;> simp [List.countP_cons, hp, List.getD]

/-- Claim C5: outlier detection followed by an apply-with-drop with the
same inspected columns and threshold (no intervening mutation) yields a
dataset with original row count minus total_outliers rows.  First
conjunct: the core pipeline (detect_outliers then remove_outliers, which
re-derives the identical z-score mask).  Second conjunct: the backend
pipeline (compute_outliers caches the mask and apply drop consumes it),
for every detection method. -/
theorem outlier_detect_drop_row_count :
    (∀ (df : DataFrame) (columns : Option (List String)) (t : ℚ)
        (report : OutlierReport),
      detectOutliers df columns t = .ok report →
      (removeOutliersOp df columns t).1.nrows = df.nrows - report.totalOutliers ∧
      report.totalOutliers ≤ df.nrows) ∧
    (∀ (s : SessionDataB) (req : OutlierComputeRequestB) (ifp : List Bool)
        (s1 : SessionDataB) (comp : OutlierComputationB)
        (dropReq : OutlierApplyRequestB) (s2 : SessionDataB) (res : ApplyResultB),
      computeOutliersB s req ifp = .ok (s1, comp) →
      dropReq.action = "drop" →
      applyOutliersB s1 dropReq = .ok (s2, res) →
      s2.dataframe.nrows = comp.stats.totalRows - comp.stats.outlierRows) := by
  constructor
  · exact core_detect_remove_aux
  · intro s req ifp s1 comp dropReq s2 res hcomp hact happly
    unfold computeOutliersB at hcomp
    cases hm : computeMaskB s.dataframe req ifp with
    | error e => rw [hm] at hcomp; cases hcomp
    | ok mask =>
      rw [hm] at hcomp
      dsimp only at hcomp
      injection hcomp with hcomp
      injection hcomp with h1 h2
      subst h1
      subst h2
      have hlen : mask.length = s.dataframe.nrows := computeMaskB_length hm
      unfold applyOutliersB at happly
      have hdrop : (dropReq.action == "reset") = false := by
        rw [hact]; rfl
      have hmaskact : (dropReq.action == "mask") = false := by
        rw [hact]; rfl
      have hdropact : (dropReq.action == "drop") = true := by
        rw [hact]; rfl
      rw [hdrop] at happly
      simp only [Bool.false_eq_true, if_false] at happly
      simp only [hmaskact, hdropact, Bool.false_eq_true, if_false, if_true] at happly
      injection happly with happly
      injection happly with h3 h4
      have hs2 : s2.dataframe =
          dropRows s.dataframe (fun i => !(mask.getD i false)) := by
        rw [← h3]
      rw [hs2, dropRows_nrows]
      show s.dataframe.nrows - _ = s.dataframe.nrows - mask.countP (fun b => !b)
      congr 1
      rw [← hlen]
      calc (List.range mask.length).countP (fun i => !(mask.getD i false))
          = (List.range mask.length).countP (fun i => (fun b => !b) (mask.getD i false)) := rfl
        _ = mask.countP (fun b => !b) := countP_range_getD mask (fun b => !b)

/-- Concrete dataset from the repository tests: ten ones and a 25; with
the default threshold 3 exactly the last row is a z-score outlier. -/
def w5df : DataFrame :=
  { cols := [{ name := "value", dtype := Dtype.numeric,
               cells := [Cell.num 1, Cell.num 1, Cell.num 1, Cell.num 1, Cell.num 1,
                         Cell.num 1, Cell.num 1, Cell.num 1, Cell.num 1, Cell.num 1,
                         Cell.num 25] }]
    nrows := 11 }

def w5report : OutlierReport :=
  { method := "zscore", inspectedColumns := ["value"], threshold := 3,
    totalOutliers := 1, sampleIndices := [10] }

/-- Concrete backend witness data: session, compute request, resulting
cached state, computation, drop request and post-drop session for the
[0, 5, 0] column with z = 1/2 (every row flagged). -/
def w5s0 : SessionDataB := ⟨c1df, none⟩

def w5req : OutlierComputeRequestB := ⟨"zscore", { z := some (1/2) }⟩

def w5state : OutlierStateB :=
  ⟨[false, false, false], "zscore", { z := some (1/2) }⟩

def w5s1 : SessionDataB := ⟨c1df, some w5state⟩

def w5comp : OutlierComputationB :=
  ⟨[false, false, false], [0, 1, 2], ⟨3, 3, 0⟩⟩

def w5drop : OutlierApplyRequestB := ⟨"drop", {}⟩

def w5s2 : SessionDataB :=
  ⟨dropRows c1df (fun i => !([false, false, false].getD i false)), some w5state⟩

/-- Witness for C5: on the test dataset the core pipeline reports one
outlier and removing commits 10 = 11 - 1 rows; the backend pipeline on
the [0, 5, 0] column with z = 1/2 flags every row and dropping commits
0 = 3 - 3 rows. -/
theorem outlier_detect_drop_row_count_witness :
    ((removeOutliersOp w5df none 3).1.nrows = w5df.nrows - w5report.totalOutliers) ∧
    w5s2.dataframe.nrows = w5comp.stats.totalRows - w5comp.stats.outlierRows := by
  constructor
  · have hdet : detectOutliers w5df none 3 = .ok w5report := by
      norm_num [detectOutliers, numericColumnsOf, DataFrame.numericDtypeCols,
        DataFrame.colCells, DataFrame.findCol, rowIsOutlier, zOutlierAt,
        presentVals, toNumeric, w5df, w5report, List.filterMap, List.filter,
        List.range_succ, List.find?, List.any]
    exact (outlier_detect_drop_row_count.1 w5df none 3 w5report hdet).1
  · have hzi : ¬ (("zscore" : String) = "iqr") := by decide
    have hcomp : computeOutliersB w5s0 w5req [] = .ok (w5s1, w5comp) := by
      norm_num [computeOutliersB, computeMaskB, zscoreWithin, orDefault,
        presentVals, toNumeric, c1df, w5s0, w5req, w5s1, w5state, w5comp, hzi,
        List.filterMap, List.filter, List.range_succ, List.countP,
        List.countP.go, List.all, List.getD]
    have happly : applyOutliersB w5s1 w5drop = .ok (w5s2, .dropR (0, 1)) := by
      have h1 : ¬ (("drop" : String) = "reset") := by decide
      have h2 : ¬ (("drop" : String) = "mask") := by decide
      simp only [applyOutliersB, w5s1, w5drop, w5state, w5s2]
      norm_num [h1, h2, dropRows, c1df, List.range_succ, List.filterMap,
        List.countP, List.countP.go, List.getD]
    exact outlier_detect_drop_row_count.2 w5s0 w5req [] w5s1 w5comp w5drop
      w5s2 (.dropR (0, 1)) hcomp rfl happly

/-! ## String helpers (ASCII lower/trim, Python float parsing)

Python str.lower / str.strip are modelled on ASCII (the algorithm names
and hyperparameter strings flowing through them are ASCII), and float()
on strings accepts sign, digits, one decimal point and an exponent
(inf/nan literals and underscores are outside the model). -/

def isSpaceCh (c : Char) : Bool :=
  c == ' ' || c == '\t' || c == '\n' || c == '\r'

def lowerCh (c : Char) : Char :=
  if 'A' ≤ c && c ≤ 'Z' then Char.ofNat (c.toNat + 32) else c

def strLowerAscii (s : String) : String :=
  ⟨s.data.map lowerCh⟩

def strTrim (s : String) : String :=
  ⟨((s.data.dropWhile isSpaceCh).reverse.dropWhile isSpaceCh).reverse⟩

def isDigitCh (c : Char) : Bool :=
  '0' ≤ c && c ≤ '9'

def natOfDigits (cs : List Char) : ℕ :=
  cs.foldl (fun a c => 10 * a + (c.toNat - '0'.toNat)) 0

/-- Split a char list at the first occurrence of sep. -/
def splitChar (sep : Char) : List Char → List Char × Option (List Char)
  | [] => ([], none)
  | c :: cs =>
    if c == sep then ([], some cs)
    else
      let r := splitChar sep cs
      (c :: r.1, r.2)

def parseSignCh : List Char → Bool × List Char
  | '+' :: cs => (false, cs)
  | '-' :: cs => (true, cs)
  | cs => (false, cs)

/-- Python float(s) (after stripping): sign, digits with an optional
decimal point, optional exponent. -/
def parseFloatQ (s : String) : Option ℚ :=
  let (neg, cs) := parseSignCh s.data
  let (mant, expPart) :=
    match splitChar 'e' cs with
    | (m, some e) => (m, some e)
    | (_, none) =>
      match splitChar 'E' cs with
      | (m2, some e) => (m2, some e)
      | (m2, none) => (m2, none)
  let (ip, fpOpt) := splitChar '.' mant
  let fp := fpOpt.getD []
  if !(ip.all isDigitCh && fp.all isDigitCh) then none
  else if ip.isEmpty && fp.isEmpty then none
  else
    let base : ℚ := (natOfDigits (ip ++ fp) : ℚ) / ((10 : ℚ) ^ fp.length)
    let withExp : Option ℚ :=
      match expPart with
      | none => some base
      | some e =>
        let (eneg, eds) := parseSignCh e
        if eds.isEmpty || !(eds.all isDigitCh) then none
        else some (if eneg then base / (10 : ℚ) ^ natOfDigits eds
                   else base * (10 : ℚ) ^ natOfDigits eds)
    withExp.map (fun q => if neg then -q else q)

/-! ## Core training pipeline (src/plugins/tabular_ml/core/__init__.py)

The sklearn estimators, the fitted scaler and the seeded shuffling inside
train_test_split are external libraries: their numeric behaviour enters
through a FittedModel oracle and the split is modelled as the identity
permutation (the claims never depend on which rows land where, only on
the set sizes and the error behaviour).  Estimator capability flags
(coef_, feature_importances_, predict_proba) are class-level facts and
live in the registry. -/

/-- An untrusted JSON hyperparameter value. -/
inductive HValue where
  | intV (n : ℤ)
  | floatV (q : ℚ)
  | boolV (b : Bool)
  | strV (s : String)
  | noneV
deriving DecidableEq, Repr

/-- Python float(value): numbers and numeric strings coerce, bools map to
0/1, None raises TypeError. -/
def pyFloat : HValue → Option ℚ
  | HValue.intV n => some (n : ℚ)
  | HValue.floatV q => some q
  | HValue.boolV b => some (if b then 1 else 0)
  | HValue.strV s => parseFloatQ (strTrim s)
  | HValue.noneV => none

/-- Python bool(value) truthiness for the non-string bool coercion. -/
def pyTruthy : HValue → Bool
  | HValue.intV n => n != 0
  | HValue.floatV q => q != 0
  | HValue.boolV b => b
  | HValue.strV s => s != ""
  | HValue.noneV => false

/-- int(q): truncation toward zero. -/
def ratTrunc (q : ℚ) : ℤ :=
  if 0 ≤ q then Int.floor q else -(Int.floor (-q))

/-- Hyperparameter schema types (int/float/bool/select).
`[src core 431-593]` -/
inductive PType where
  | pInt
  | pFloat
  | pBool
  | pSelect (choices : List String)
deriving DecidableEq, Repr

structure ParamDef where
  ptype : PType
  dflt : HValue := HValue.noneV
  minV : Option ℚ := none
  maxV : Option ℚ := none
  step : Option ℚ := none
  nullable : Bool := false
deriving DecidableEq, Repr

/-- Capability flags of an estimator class after fitting. -/
structure EstimatorDesc where
  hasCoef : Bool
  hasFeatureImportances : Bool
  hasPredictProba : Bool
deriving DecidableEq, Repr

inductive Task where
  | classification
  | regression
deriving DecidableEq, Repr

structure TaskSpecT where
  useScaler : Bool
  est : EstimatorDesc
  hyper : List (String × ParamDef)
deriving DecidableEq, Repr

structure AlgoSpecT where
  label : String
  cls : TaskSpecT
  reg : TaskSpecT
deriving DecidableEq, Repr

def logisticDesc : EstimatorDesc := ⟨true, false, true⟩
def ridgeDesc : EstimatorDesc := ⟨true, false, false⟩
def forestClsDesc : EstimatorDesc := ⟨false, true, true⟩
def forestRegDesc : EstimatorDesc := ⟨false, true, false⟩

def maxIterPD : ParamDef :=
  { ptype := PType.pInt, dflt := HValue.intV 1000, minV := some 100, maxV := some 5000, step := some 50 }

def cRegPD : ParamDef :=
  { ptype := PType.pFloat, dflt := HValue.floatV 1, minV := some (1/100), maxV := some 10, step := some (1/100) }

def penaltyPD : ParamDef :=
  { ptype := PType.pSelect ["l2", "none"], dflt := HValue.strV "l2" }

def solverPD : ParamDef :=
  { ptype := PType.pSelect ["lbfgs", "saga"], dflt := HValue.strV "lbfgs" }

def alphaPD : ParamDef :=
  { ptype := PType.pFloat, dflt := HValue.floatV 1, minV := some 0, maxV := some 100, step := some (1/10) }

def fitInterceptPD : ParamDef :=
  { ptype := PType.pBool, dflt := HValue.boolV true }

def nEstimatorsPD (dflt hi : ℤ) : ParamDef :=
  { ptype := PType.pInt, dflt := HValue.intV dflt, minV := some 10, maxV := some (hi : ℚ), step := some 10 }

def maxDepthNullablePD : ParamDef :=
  { ptype := PType.pInt, dflt := HValue.noneV, minV := some 1, maxV := some 50, nullable := true }

def minSamplesSplitPD : ParamDef :=
  { ptype := PType.pInt, dflt := HValue.intV 2, minV := some 2, maxV := some 20 }

def learningRatePD : ParamDef :=
  { ptype := PType.pFloat, dflt := HValue.floatV (1/10), minV := some (1/100), maxV := some 1, step := some (1/100) }

def maxDepthGbPD : ParamDef :=
  { ptype := PType.pInt, dflt := HValue.intV 3, minV := some 1, maxV := some 8 }

def linearClsSpec : TaskSpecT :=
  { useScaler := true, est := logisticDesc
    hyper := [("max_iter", maxIterPD), ("C", cRegPD), ("penalty", penaltyPD), ("solver", solverPD)] }

def linearRegSpec : TaskSpecT :=
  { useScaler := true, est := ridgeDesc
    hyper := [("alpha", alphaPD), ("fit_intercept", fitInterceptPD)] }

def forestClsSpec : TaskSpecT :=
  { useScaler := false, est := forestClsDesc
    hyper := [("n_estimators", nEstimatorsPD 200 1000), ("max_depth", maxDepthNullablePD),
              ("min_samples_split", minSamplesSplitPD)] }

def forestRegSpec : TaskSpecT :=
  { useScaler := false, est := forestRegDesc
    hyper := [("n_estimators", nEstimatorsPD 300 1000), ("max_depth", maxDepthNullablePD),
              ("min_samples_split", minSamplesSplitPD)] }

def gbClsSpec : TaskSpecT :=
  { useScaler := false, est := forestClsDesc
    hyper := [("n_estimators", nEstimatorsPD 100 500), ("learning_rate", learningRatePD),
              ("max_depth", maxDepthGbPD)] }

def gbRegSpec : TaskSpecT :=
  { useScaler := false, est := forestRegDesc
    hyper := [("n_estimators", nEstimatorsPD 100 500), ("learning_rate", learningRatePD),
              ("max_depth", maxDepthGbPD)] }

/-- _algorithm_specs.  `[src core 421-595]` -/
def algorithmSpecs : List (String × AlgoSpecT) :=
  [("linear_model",
    { label := "Generalised linear model", cls := linearClsSpec, reg := linearRegSpec }),
   ("random_forest",
    { label := "Random forest ensemble", cls := forestClsSpec, reg := forestRegSpec }),
   ("gradient_boosting",
    { label := "Gradient boosting ensemble", cls := gbClsSpec, reg := gbRegSpec })]

def lookupParam (l : List (String × ParamDef)) (k : String) : Option ParamDef :=
  (l.find? (fun p => p.1 == k)).map Prod.snd

/-- Whether the coerced value counts as in ("", None) for the nullable
check. -/
def isEmptyOrNone : HValue → Bool
  | HValue.strV s => s == ""
  | HValue.noneV => true
  | _ => false

/-- Validation/coercion of one override against its declared type.
`[src core 647-677]` -/
def coerceOverride (key : String) (pd : ParamDef) (v : HValue) : Except Err HValue :=
  match pd.ptype with
  | PType.pInt =>
    match pyFloat v with
    | some q => .ok (HValue.intV (ratTrunc q))
    | none => .error (.tabular ("Hyperparameter " ++ key ++ " must be an integer"))
  | PType.pFloat =>
    match pyFloat v with
    | some q => .ok (HValue.floatV q)
    | none => .error (.tabular ("Hyperparameter " ++ key ++ " must be numeric"))
  | PType.pBool =>
    match v with
    | HValue.strV s =>
      let lowered := strLowerAscii (strTrim s)
      if ["true", "1", "yes"].contains lowered then .ok (HValue.boolV true)
      else if ["false", "0", "no"].contains lowered then .ok (HValue.boolV false)
      else .error (.tabular ("Hyperparameter " ++ key ++ " must be true or false"))
    | _ => .ok (HValue.boolV (pyTruthy v))
  | PType.pSelect choices =>
    if (match v with | HValue.strV s => choices.contains s | _ => false) then .ok v
    else .error (.tabular ("Hyperparameter " ++ key ++ " must be one of: " ++
      String.intercalate ", " choices))

/-- The override loop: unknown keys are skipped silently, known keys are
coerced (raising at the first failure, in iteration order), and the
nullable check runs on the coerced value.  `[src core 643-681]` -/
def applyHypersGo (allowed : List (String × ParamDef)) :
    List (String × HValue) → Except Err (List (String × HValue))
  | [] => .ok []
  | (k, v) :: rest =>
    match lookupParam allowed k with
    | none => applyHypersGo allowed rest
    | some pd => do
      let cv ← coerceOverride k pd v
      let rv := if pd.nullable && isEmptyOrNone cv then HValue.noneV else cv
      let rest2 ← applyHypersGo allowed rest
      .ok ((k, rv) :: rest2)

/-- _apply_hyperparameters: an absent or empty override mapping is a
no-op; the source re-derives the schema from (algorithm, task) and
train_model passes exactly the resolved pair, so the task spec is
threaded directly.  The returned list is what reaches set_params on the
external estimator.  `[src core 632-683]` -/
def applyHyperparameters (spec : TaskSpecT)
    (overrides : Option (List (String × HValue))) :
    Except Err (List (String × HValue)) :=
  match overrides with
  | none => .ok []
  | some ov =>
    if ov.isEmpty then .ok []
    else applyHypersGo spec.hyper ov

/-- (requested or "auto").strip().lower(), then "" and "auto" resolve to
linear_model.  `[src core 707-709]` -/
def normalizeRequested (requested : String) : String :=
  let base := if requested == "" then "auto" else requested
  let normalized := strLowerAscii (strTrim base)
  if normalized == "" || normalized == "auto" then "linear_model" else normalized

/-- _resolve_algorithm: returns the task spec, canonical name and display
label.  `[src core 704-725]` -/
def resolveAlgorithm (task : Task) (requested : String) :
    Except Err (TaskSpecT × String × String) :=
  let normalized := normalizeRequested requested
  match algorithmSpecs.find? (fun p => p.1 == normalized) with
  | none => .error (.tabular "Unsupported algorithm selected")
  | some (name, spec) =>
    let ts := match task with
      | Task.classification => spec.cls
      | Task.regression => spec.reg
    let label :=
      if normalized == "linear_model" then
        (match task with
         | Task.classification => "Logistic regression"
         | Task.regression => "Ridge regression")
      else spec.label
    .ok (ts, name, label)

/-- _prepare: target presence, non-empty feature frame, numeric features
only; returns the numeric feature columns and the raw target cells.
`[src core 686-697]` -/
def prepare (df : DataFrame) (target : String) :
    Except Err (List Column × List Cell) :=
  if !(df.hasCol target) then .error (.tabular "Target column not found")
  else
    let X := df.cols.filter (fun c => c.name != target)
    if X.isEmpty || df.nrows == 0 then
      .error (.tabular "Dataset must contain feature columns")
    else
      let Xn := X.filter (fun c => c.dtype == Dtype.numeric)
      if Xn.isEmpty then .error (.tabular "Only numeric features are supported")
      else .ok (Xn, df.colCells target)

/-- The distinct non-missing values in first-occurrence order (what
value_counts / nunique enumerate). -/
def distinctAux : List Cell → List Cell → List Cell
  | [], _ => []
  | c :: rest, seen =>
    if c = Cell.null || seen.contains c then distinctAux rest seen
    else c :: distinctAux rest (c :: seen)

def distinctCells (cells : List Cell) : List Cell :=
  distinctAux cells []

/-- Series.nunique (dropna=True). -/
def nunique (cells : List Cell) : ℕ :=
  (distinctCells cells).length

/-- value_counts().min().  An empty value_counts yields NaN in pandas and
every NaN comparison is False; returning 0 gives the same comparison
outcomes at the call sites (0 >= 2 and 0 < 2 behave like NaN there). -/
def minClassCount (cells : List Cell) : ℕ :=
  match (distinctCells cells).map (fun c => cells.countP (fun x => x == c)) with
  | [] => 0
  | c :: rest => rest.foldl Nat.min c

/-- _is_classification: nunique <= max(10, int(len * 0.05)).  The float
product int(len(y) * 0.05) equals the integer floor len/20 (= len*5/100 in
natural division) for every realistic length: the double rounding error is
orders of magnitude below the 1/20 granularity.  `[src core 700-701]` -/
def isClassificationB (y : List Cell) : Bool :=
  nunique y ≤ max 10 (y.length * 5 / 100)

/-- ceil(q) as -floor(-q). -/
def natCeilQ (q : ℚ) : ℕ :=
  (-(Int.floor (-q))).toNat

/-- The first/second index block of a (shuffled) split; the seed-42
permutation applied by the external library is modelled as the identity,
the claims depend only on sizes and error behaviour. -/
def splitIndices (n nTrain : ℕ) : List ℕ × List ℕ :=
  ((List.range n).take nTrain, (List.range n).drop nTrain)

/-- The error behaviour of sklearn train_test_split: an empty side is
rejected, and a stratified split requires every class to have at least 2
members and both sides to hold at least one row per class. -/
def splitCheck (nTrain nTest : ℕ) (strat : Option (List Cell)) : Option String :=
  if nTest == 0 || nTrain == 0 then
    some "train_test_split produced an empty train or test set"
  else
    match strat with
    | none => none
    | some y =>
      if minClassCount y < 2 then
        some "The least populated class in y has fewer than 2 members"
      else if nTrain < nunique y || nTest < nunique y then
        some "The train or test size is smaller than the number of classes"
      else none

/-- sklearn train_test_split with a float test_size: n_test = ceil(n *
test_size). -/
def trainTestSplitIdx (n : ℕ) (testSize : ℚ) (strat : Option (List Cell)) :
    Except Err (List ℕ × List ℕ) :=
  let nTest := natCeilQ (testSize * (n : ℚ))
  let nTrain := n - nTest
  match splitCheck nTrain nTest strat with
  | some msg => .error (.tabular msg)
  | none => .ok (splitIndices n nTrain)

/-- The holdout decision and test-fraction negotiation of train_model:
no split at all for fewer than 8 rows or a classification class below 2
members; otherwise a stratified split is attempted for classification,
falling back to an unstratified split with an enlarged test fraction when
20% of the rows is below the class count (the min-below-2 arm of that
disjunction is unreachable inside the holdout branch).
`[src core 756-776]` -/
def resolveSplit (n : ℕ) (y : List Cell) (task : Task) :
    Except Err (List ℕ × List ℕ) :=
  let holdout := 8 ≤ n && (task != Task.classification || 2 ≤ minClassCount y)
  if holdout then
    let base : ℚ × Option (List Cell) :=
      match task with
      | Task.classification =>
        let k := nunique y
        if (y.length : ℚ) * (1/5) < (k : ℚ) || minClassCount y < 2 then
          (max (1/5) (min (1/2) ((k : ℚ) / (y.length : ℚ) + 1/10)), none)
        else ((1/5 : ℚ), some y)
      | Task.regression => ((1/5 : ℚ), none)
    let ts1 := if n < 5 then max base.1 (1/2) else base.1
    let ts := min ts1 (1/2)
    trainTestSplitIdx n ts base.2
  else
    .ok (List.range n, List.range n)

/-- coef_ of a fitted linear estimator: 1-D or 2-D. -/
inductive CoefArr where
  | vec (v : List ℚ)
  | mat (m : List (List ℚ))

/-- The behaviour of the fitted external objects (estimator, scaler):
predictions, probability rows, classes_, coef_, feature_importances_ and
the scaler transform, all produced by library code. -/
structure FittedModel where
  predictF : List (Option ℚ) → Cell
  probaF : List (Option ℚ) → List ℚ
  classesOpt : Option (List Cell)
  coef : CoefArr
  featImps : List ℚ
  scaleF : List (Option ℚ) → List (Option ℚ)

/-- Observable calls into the external estimator; the claims track
whether fit ever ran. -/
inductive TrainEv where
  | fitEv
deriving DecidableEq, Repr

/-- The numeric feature vector of row i (X row, NaN preserved). -/
def featureRow (xcols : List Column) (i : ℕ) : List (Option ℚ) :=
  xcols.map (fun c => toNumeric (c.cells.getD i Cell.null))

/-- np.abs on a coefficient array. -/
def coefAbs : CoefArr → CoefArr
  | CoefArr.vec v => CoefArr.vec (v.map (fun x => |x|))
  | CoefArr.mat m => CoefArr.mat (m.map (fun r => r.map (fun x => |x|)))

/-- Column means of a matrix (np mean(axis=0)). -/
def colMeans (m : List (List ℚ)) : List ℚ :=
  (List.range (m.headD []).length).map
    (fun j => ((m.map (fun r => r.getD j 0)).sum) / (m.length : ℚ))

/-- Importance values, classification branch: abs(coef_) row-averaged
when 2-D if coef_ exists, else feature_importances_, else zeros.
`[src core 799-805]` -/
def importanceValuesCls (desc : EstimatorDesc) (coef : CoefArr)
    (featImps : List ℚ) (k : ℕ) : List ℚ :=
  if desc.hasCoef then
    match coefAbs coef with
    | CoefArr.vec v => v
    | CoefArr.mat m => colMeans m
  else if desc.hasFeatureImportances then featImps
  else List.replicate k 0

/-- Importance values, regression branch: abs(coef_) without averaging
(then flattened by the common tail) if coef_ exists, else
feature_importances_, else zeros.  `[src core 836-842]` -/
def importanceValuesReg (desc : EstimatorDesc) (coef : CoefArr)
    (featImps : List ℚ) (k : ℕ) : List ℚ :=
  if desc.hasCoef then
    match coefAbs coef with
    | CoefArr.vec v => v
    | CoefArr.mat m => m.flatten
  else if desc.hasFeatureImportances then featImps
  else List.replicate k 0

/-- np.resize: cyclic repetition (zeros when the source is empty). -/
def npResize (l : List ℚ) (k : ℕ) : List ℚ :=
  if l.isEmpty then List.replicate k 0
  else (List.range k).map (fun i => l.getD (i % l.length) 0)

/-- Stable descending sort by value (Python sorted(..., reverse=True)).
`[src core 864-867]` -/
def insertByValDesc (x : String × ℚ) : List (String × ℚ) → List (String × ℚ)
  | [] => [x]
  | y :: ys => if x.2 ≥ y.2 then x :: y :: ys else y :: insertByValDesc x ys

def sortByValDesc (l : List (String × ℚ)) : List (String × ℚ) :=
  l.foldr insertByValDesc []

structure EvalRow where
  rowIndex : ℕ
  actual : Cell
  predicted : Cell
  residual : ℚ
  confidence : Option ℚ
deriving DecidableEq, Repr

/-- Reported metric values; RMSE carries the radicand so that all stored
data stays rational (the claims never consume the value). -/
inductive MetricVal where
  | val (q : ℚ)
  | sqrtOf (q : ℚ)
deriving DecidableEq, Repr

structure TrainingResult where
  task : Task
  algorithm : String
  algorithmLabel : String
  metrics : List (String × MetricVal)
  featureImportance : List (String × ℚ)
  evaluation : List EvalRow
  evaluationColumns : List String
  estimator : FittedModel
  estimatorDesc : EstimatorDesc
  scaler : Bool
  featureColumns : List String
  targetColumn : String

/-- The common importance tail: flatten is already done by the branch
helpers, then np.resize to the feature count when the length differs,
zip with the feature names and sort by magnitude descending.
`[src core 856-867]` -/
def importanceAssoc (names : List String) (impVals : List ℚ) : List (String × ℚ) :=
  let arr := if impVals.length != names.length then npResize impVals names.length else impVals
  sortByValDesc (List.zip names arr)

/-- The post-validation phase of train_model: scaler transform, fit (the
emitted event), predict, metrics, importance and the row-level evaluation
table.  The zip over (y_test.index, preds) walks equal-length lists by
construction, so the strict=False truncation never cuts.  In the
regression branch mean_squared_error and the float() casts raise on
non-numeric values, after the fit.  `[src core 783-880]` -/
def trainFit (xcols : List Column) (y : List Cell) (task : Task)
    (testIdx : List ℕ) (ts : TaskSpecT) (resolvedName label : String)
    (fitted : FittedModel) (target : String) :
    List TrainEv × Except Err TrainingResult :=
  let yTest := testIdx.map (fun i => y.getD i Cell.null)
  let rawTest := testIdx.map (featureRow xcols)
  let xTestData := if ts.useScaler then rawTest.map fitted.scaleF else rawTest
  let names := xcols.map Column.name
  match task with
  | Task.classification =>
    let preds := xTestData.map fitted.predictF
    let nMatches := (List.zip yTest preds).countP (fun p => p.2 == p.1)
    let metrics := [("accuracy", MetricVal.val ((nMatches : ℚ) / (testIdx.length : ℚ)))]
    let impVals := importanceValuesCls ts.est fitted.coef fitted.featImps xcols.length
    let probaM : Option (List (List ℚ)) :=
      if ts.est.hasPredictProba then some (xTestData.map fitted.probaF) else none
    let sizePos : Bool := match probaM with
      | some pm => (pm.map List.length).sum != 0
      | none => false
    let evalCols := ["row_index", "actual", "predicted", "residual"] ++
      (if sizePos then ["confidence"] else [])
    let classes : Option (List Cell) := match probaM with
      | some _ => some (fitted.classesOpt.getD [])
      | none => none
    let rows := (List.range testIdx.length).map (fun pos =>
      let actual := yTest.getD pos Cell.null
      let predicted := preds.getD pos Cell.null
      let conf : Option ℚ := match probaM, classes with
        | some pm, some cls =>
          if cls.isEmpty then none
          else
            match cls.findIdx? (fun c => c == predicted) with
            | some ci => some ((pm.getD pos []).getD ci 0)
            | none => none
        | _, _ => none
      { rowIndex := testIdx.getD pos 0, actual := actual, predicted := predicted
        residual := if predicted == actual then 0 else 1, confidence := conf })
    ([TrainEv.fitEv],
     .ok { task := task, algorithm := resolvedName, algorithmLabel := label
           metrics := metrics, featureImportance := importanceAssoc names impVals
           evaluation := rows, evaluationColumns := evalCols
           estimator := fitted, estimatorDesc := ts.est, scaler := ts.useScaler
           featureColumns := names, targetColumn := target })
  | Task.regression =>
    let preds := xTestData.map fitted.predictF
    match yTest.mapM toNumeric, preds.mapM toNumeric with
    | some yq, some pq =>
      let mse := ((List.zip yq pq).map (fun p => (p.2 - p.1) ^ 2)).sum / (testIdx.length : ℚ)
      let metrics := [("rmse", MetricVal.sqrtOf mse)]
      let impVals := importanceValuesReg ts.est fitted.coef fitted.featImps xcols.length
      let rows := (List.range testIdx.length).map (fun pos =>
        { rowIndex := testIdx.getD pos 0
          actual := Cell.num (yq.getD pos 0), predicted := Cell.num (pq.getD pos 0)
          residual := pq.getD pos 0 - yq.getD pos 0, confidence := none })
      ([TrainEv.fitEv],
       .ok { task := task, algorithm := resolvedName, algorithmLabel := label
             metrics := metrics, featureImportance := importanceAssoc names impVals
             evaluation := rows
             evaluationColumns := ["row_index", "actual", "predicted", "residual"]
             estimator := fitted, estimatorDesc := ts.est, scaler := ts.useScaler
             featureColumns := names, targetColumn := target })
    | _, _ =>
      ([TrainEv.fitEv], .error (.tabular "could not convert regression values to float"))

/-- train_model: prepare, task detection, split, algorithm resolution,
hyperparameter validation, then the fit/evaluate phase.  Every error up to
and including hyperparameter validation happens before the estimator fit
(empty event list).  `[src core 746-880]` -/
def trainModel (df : DataFrame) (target : String) (algorithm : String)
    (hyperparameters : Option (List (String × HValue))) (fitted : FittedModel) :
    List TrainEv × Except Err TrainingResult :=
  match prepare df target with
  | .error e => ([], .error e)
  | .ok (xcols, y) =>
    let task := if isClassificationB y then Task.classification else Task.regression
    match resolveSplit df.nrows y task with
    | .error e => ([], .error e)
    | .ok (_trainIdx, testIdx) =>
      match resolveAlgorithm task algorithm with
      | .error e => ([], .error e)
      | .ok (ts, resolvedName, label) =>
        match applyHyperparameters ts hyperparameters with
        | .error e => ([], .error e)
        | .ok _resolved => trainFit xcols y task testIdx ts resolvedName label fitted target

/-- train_on_dataset: the latest-result cache is updated only on success
(an exception propagates before the assignment).  `[src core 728-743]` -/
def trainOnDataset (df : DataFrame) (target : String) (algorithm : String)
    (hyperparameters : Option (List (String × HValue))) (fitted : FittedModel)
    (st : Option TrainingResult) :
    Option TrainingResult × List TrainEv × Except Err TrainingResult :=
  match trainModel df target algorithm hyperparameters fitted with
  | (evs, .ok r) => (some r, evs, .ok r)
  | (evs, .error e) => (st, evs, .error e)

/-! ## Inference (core predict_single) -/

/-- _normalise_feature_value: numbers pass through (a rational is always
finite; the non-finite float rejection has no counterpart here), numeric
strings parse, anything else is rejected naming the column.
`[src core 898-913]` -/
def normaliseFeatureValue (v : Cell) (col : String) : Except Err ℚ :=
  match v with
  | Cell.num q => .ok q
  | Cell.str s =>
    let stripped := strTrim s
    if stripped == "" then
      .error (.tabular ("Feature " ++ col ++ " is required for inference"))
    else
      match parseFloatQ stripped with
      | some q => .ok q
      | none => .error (.tabular ("Feature " ++ col ++ " must be numeric"))
  | Cell.null => .error (.tabular ("Feature " ++ col ++ " must be numeric"))

def buildFeatureVecGo (features : List (String × Cell)) :
    List String → Except Err (List ℚ)
  | [] => .ok []
  | c :: rest =>
    match features.lookup c with
    | none => .error (.tabular ("Missing feature " ++ c ++ " for inference"))
    | some v => do
      let q ← normaliseFeatureValue v c
      let restQ ← buildFeatureVecGo features rest
      .ok (q :: restQ)

/-- _build_feature_matrix for a single row, including the scaler
transform.  `[src core 916-932]` -/
def buildFeatureMatrixRow (r : TrainingResult) (features : List (String × Cell)) :
    Except Err (List (Option ℚ)) :=
  if r.featureColumns.isEmpty then
    .error (.tabular "Model does not expose numeric features for inference")
  else
    match buildFeatureVecGo features r.featureColumns with
    | .error e => .error e
    | .ok qs =>
      let vec := qs.map some
      .ok (if r.scaler then r.estimator.scaleF vec else vec)

structure PredictPayload where
  task : Task
  target : String
  featureColumns : List String
  prediction : Cell
  probabilities : Option (List (Cell × ℚ))
  confidence : Option ℚ

def listMaxQ : List ℚ → ℚ
  | [] => 0
  | x :: xs => xs.foldl max x

/-- predict_single against the latest cached result: ModelNotReady before
any successful train; for classification with probabilities the payload
carries the per-class probability map (keys str(class), kept here as the
class cells: distinct classes render distinctly) and the max-probability
confidence; max() on an empty mapping would raise.  `[src core 935-960]` -/
def predictSingle (st : Option TrainingResult) (features : List (String × Cell)) :
    Except Err PredictPayload :=
  match st with
  | none => .error (.modelNotReady "Train a model before running inference")
  | some r =>
    match buildFeatureMatrixRow r features with
    | .error e => .error e
    | .ok vec =>
      let prediction := r.estimator.predictF vec
      let base : PredictPayload :=
        { task := r.task, target := r.targetColumn
          featureColumns := r.featureColumns, prediction := prediction
          probabilities := none, confidence := none }
      if r.task == Task.classification && r.estimatorDesc.hasPredictProba then
        let probaRow := r.estimator.probaF vec
        if probaRow.length == 0 then .ok base
        else
          match r.estimator.classesOpt with
          | none => .ok base
          | some classes =>
            let probabilities := List.zip classes probaRow
            if probabilities.isEmpty then
              .error (.tabular "max() arg is an empty sequence")
            else
              .ok { base with
                    probabilities := some probabilities,
                    confidence := some (listMaxQ (probabilities.map Prod.snd)) }
      else .ok base

/-! ## Preprocessing engine (backend module,
src/plugins/tabular_ml/backend/preprocess.py) -/

/-- _target_task: regression iff the target is numeric-dtyped with more
than 20 distinct non-missing values, else classification.
`[src backend/preprocess.py 31-34]` -/
def targetTaskB (dtype : Dtype) (cells : List Cell) : Task :=
  if dtype == Dtype.numeric && 20 < nunique cells then Task.regression
  else Task.classification

structure SplitConfigB where
  train : ℚ := 4/5
  seed : ℕ := 42
deriving DecidableEq, Repr

structure ImputeConfigB where
  numeric : String := "mean"
  categorical : String := "most_frequent"
  fillValue : Option String := none
deriving DecidableEq, Repr

structure ScaleConfigB where
  method : String := "standard"
deriving DecidableEq, Repr

structure EncodeConfigB where
  oneHot : Bool := true
  dropFirst : Bool := false
deriving DecidableEq, Repr

/-- PreprocessRequest (session routing already done by the service
layer).  `[src backend/schemas.py 32-38]` -/
structure PreprocessRequestB where
  target : String
  split : SplitConfigB := {}
  impute : ImputeConfigB := {}
  scale : ScaleConfigB := {}
  encode : EncodeConfigB := {}
deriving DecidableEq, Repr

/-- The column transformers fit_preprocess configures (the fitted sklearn
state is external; the configuration is data).  -/
inductive TransformerDescB where
  | numericT (imputeStrategy scaleMethod : String)
  | categoricalEncodedT (imputeStrategy fillValue : String) (dropFirst : Bool)
  | categoricalImputeOnlyT (imputeStrategy fillValue : String)
deriving DecidableEq, Repr

structure MissingSummaryB where
  targetRowsDropped : ℕ
  rowsWithMissingFeatures : ℕ
  imputedCells : ℕ
  byColumn : List (String × ℕ)
deriving DecidableEq, Repr

/-- The observable outcome of fit_preprocess: the summary dict plus the
split row index blocks of the artifacts (the fitted transformer and the
post-encoding feature names are external library state). -/
structure PreSummaryB where
  target : String
  task : Task
  rowsTrain : ℕ
  rowsTest : ℕ
  numericColumns : List String
  categoricalColumns : List String
  missing : MissingSummaryB
  transformers : List TransformerDescB
  trainIdx : List ℕ
  testIdx : List ℕ
deriving DecidableEq, Repr

/-- Python s or d on an optional string (None and "" falsy). -/
def orDefaultStr (v : Option String) (d : String) : String :=
  match v with
  | some s => if s == "" then d else s
  | none => d

/-- fit_preprocess: target check, drop rows with missing target, task
inference, numeric/categorical split, missing summary, transformer
configuration, then the train/test split (train_size floor semantics,
stratified whenever the task is classification with more than one
distinct target value, with the sklearn stratification errors and no
fallback).  `[src backend/preprocess.py 53-145]` -/
def fitPreprocessB (df : DataFrame) (req : PreprocessRequestB) :
    Except ErrB PreSummaryB :=
  match df.findCol req.target with
  | none => .error (.keyE ("Target column " ++ req.target ++ " not found"))
  | some tc =>
    let working := dropRows df (fun i => (df.colCells req.target).getD i Cell.null == Cell.null)
    let droppedRows := df.nrows - working.nrows
    let targetCells := working.colCells req.target
    let featCols := working.cols.filter (fun c => c.name != req.target)
    let task := targetTaskB tc.dtype targetCells
    let numericCols := (featCols.filter (fun c => c.dtype == Dtype.numeric)).map Column.name
    let categoricalCols := (featCols.filter (fun c => !(c.dtype == Dtype.numeric))).map Column.name
    let missingPerCol := featCols.map (fun c => (c.name, missingCount c.cells))
    let missing : MissingSummaryB :=
      { targetRowsDropped := droppedRows
        rowsWithMissingFeatures := (List.range working.nrows).countP
          (fun i => featCols.any (fun c => c.cells.getD i Cell.null == Cell.null))
        imputedCells := (missingPerCol.map Prod.snd).sum
        byColumn := missingPerCol.filter (fun p => 0 < p.2) }
    let transformers : List TransformerDescB :=
      (if numericCols.isEmpty then []
       else [TransformerDescB.numericT req.impute.numeric req.scale.method]) ++
      (if categoricalCols.isEmpty then []
       else if req.encode.oneHot then
         [TransformerDescB.categoricalEncodedT req.impute.categorical
           (orDefaultStr (if req.impute.categorical == "constant" then req.impute.fillValue
                          else none) "__missing__")
           req.encode.dropFirst]
       else
         [TransformerDescB.categoricalImputeOnlyT req.impute.categorical
           (orDefaultStr req.impute.fillValue "missing")])
    let n := working.nrows
    let nTrain := (Int.floor (req.split.train * (n : ℚ))).toNat
    let nTest := n - nTrain
    let strat : Option (List Cell) :=
      if task == Task.classification && 1 < nunique targetCells then some targetCells
      else none
    match splitCheck nTrain nTest strat with
    | some msg => .error (.valueE msg)
    | none =>
      .ok { target := req.target, task := task, rowsTrain := nTrain, rowsTest := nTest
            numericColumns := numericCols, categoricalColumns := categoricalCols
            missing := missing, transformers := transformers
            trainIdx := (splitIndices n nTrain).1, testIdx := (splitIndices n nTrain).2 }

/-! ## Backend trainer feature importances
(src/plugins/tabular_ml/backend/services.py) -/

/-- np.ravel on a coefficient array (no absolute value taken). -/
def ravelCoef : CoefArr → List ℚ
  | CoefArr.vec v => v
  | CoefArr.mat m => m.flatten

/-- _feature_importances of the backend trainer: feature_importances_
verbatim when present, else the raw (signed) ravel of coef_, else an
empty mapping.  `[src backend/services.py 394-401]` -/
def featureImportancesB (desc : EstimatorDesc) (coef : CoefArr)
    (featImps : List ℚ) (names : List String) : List (String × ℚ) :=
  if desc.hasFeatureImportances then List.zip names featImps
  else if desc.hasCoef then List.zip names (ravelCoef coef)
  else []

/-! ## Control-flow lemmas for train_model -/

theorem prepare_ok_target {df : DataFrame} {target : String}
    {xcols : List Column} {y : List Cell}
    (h : prepare df target = .ok (xcols, y)) : y = df.colCells target := by
  unfold prepare at h
  by_cases h1 : df.hasCol target
  · simp only [h1, Bool.not_true, Bool.false_eq_true, if_false] at h
    by_cases h2 : (df.cols.filter (fun c => c.name != target)).isEmpty || df.nrows == 0 <;>
      simp only [h2, if_true, if_false, Bool.false_eq_true] at h
    · cases h
    · by_cases h3 : ((df.cols.filter (fun c => c.name != target)).filter
          (fun c => c.dtype == Dtype.numeric)).isEmpty <;>
        simp only [h3, if_true, if_false, Bool.false_eq_true] at h
      · cases h
      · injection h with h
        injection h with h1 h2
        exact h2.symm
  · simp [h1] at h

theorem trainModel_ok_inv {df : DataFrame} {target algorithm : String}
    {hyp : Option (List (String × HValue))} {fitted : FittedModel}
    {evs : List TrainEv} {r : TrainingResult}
    (h : trainModel df target algorithm hyp fitted = (evs, .ok r)) :
    ∃ xcols y trainIdx testIdx ts name label resolved,
      prepare df target = .ok (xcols, y) ∧
      resolveSplit df.nrows y
        (if isClassificationB y then Task.classification else Task.regression) =
        .ok (trainIdx, testIdx) ∧
      resolveAlgorithm
        (if isClassificationB y then Task.classification else Task.regression)
        algorithm = .ok (ts, name, label) ∧
      applyHyperparameters ts hyp = .ok resolved ∧
      trainFit xcols y
        (if isClassificationB y then Task.classification else Task.regression)
        testIdx ts name label fitted target = (evs, .ok r) := by
  unfold trainModel at h
  cases hp : prepare df target with
  | error e =>
    rw [hp] at h
    injection h with h1 h2
    cases h2
  | ok p =>
    obtain ⟨xcols, y⟩ := p
    rw [hp] at h
    dsimp only at h
    cases hs : resolveSplit df.nrows y
        (if isClassificationB y then Task.classification else Task.regression) with
    | error e =>
      rw [hs] at h
      injection h with h1 h2
      cases h2
    | ok q =>
      obtain ⟨trainIdx, testIdx⟩ := q
      rw [hs] at h
      dsimp only at h
      cases ha : resolveAlgorithm
          (if isClassificationB y then Task.classification else Task.regression)
          algorithm with
      | error e =>
        rw [ha] at h
        injection h with h1 h2
        cases h2
      | ok t =>
        obtain ⟨ts, name, label⟩ := t
        rw [ha] at h
        dsimp only at h
        cases hh : applyHyperparameters ts hyp with
        | error e =>
          rw [hh] at h
          injection h with h1 h2
          cases h2
        | ok resolved =>
          rw [hh] at h
          dsimp only at h
          exact ⟨xcols, y, trainIdx, testIdx, ts, name, label, resolved,
            rfl, hs, ha, hh, h⟩

theorem trainFit_ok_task {xcols : List Column} {y : List Cell} {task : Task}
    {testIdx : List ℕ} {ts : TaskSpecT} {name label : String}
    {fitted : FittedModel} {target : String} {evs : List TrainEv}
    {r : TrainingResult}
    (h : trainFit xcols y task testIdx ts name label fitted target = (evs, .ok r)) :
    r.task = task := by
  unfold trainFit at h
  cases task with
  | classification =>
    dsimp only at h
    injection h with h1 h2
    injection h2 with h2
    rw [← h2]
  | regression =>
    dsimp only at h
    split at h
    · injection h with h1 h2
      injection h2 with h2
      rw [← h2]
    · injection h with h1 h2
      cases h2

theorem range_map_getD (l : List ℕ) :
    (List.range l.length).map (fun pos => l.getD pos 0) = l := by
  induction l with
  | nil => simp
  | cons a as ih =>
    have hr : List.range (as.length + 1) = 0 :: (List.range as.length).map Nat.succ :=
      List.range_succ_eq_map as.length
    simp only [List.length_cons, hr, List.map_cons, List.map_map]
    have htail : (List.range as.length).map ((fun pos => (a :: as).getD pos 0) ∘ Nat.succ)
        = as := by
      calc (List.range as.length).map ((fun pos => (a :: as).getD pos 0) ∘ Nat.succ)
          = (List.range as.length).map (fun pos => as.getD pos 0) := by
            apply List.map_congr_left
            intro i _
            rfl
        _ = as := ih
    rw [htail]
    rfl

theorem trainFit_ok_eval_rowIndex {xcols : List Column} {y : List Cell}
    {task : Task} {testIdx : List ℕ} {ts : TaskSpecT} {name label : String}
    {fitted : FittedModel} {target : String} {evs : List TrainEv}
    {r : TrainingResult}
    (h : trainFit xcols y task testIdx ts name label fitted target = (evs, .ok r)) :
    r.evaluation.map EvalRow.rowIndex = testIdx := by
  unfold trainFit at h
  cases task with
  | classification =>
    dsimp only at h
    injection h with h1 h2
    injection h2 with h2
    rw [← h2]
    dsimp only
    simp only [List.map_map]
    calc (List.range testIdx.length).map _
        = (List.range testIdx.length).map (fun pos => testIdx.getD pos 0) := by
          apply List.map_congr_left
          intro i _
          rfl
      _ = testIdx := by
          have := range_map_getD testIdx
          simpa using this
  | regression =>
    dsimp only at h
    split at h
    · injection h with h1 h2
      injection h2 with h2
      rw [← h2]
      dsimp only
      simp only [List.map_map]
      calc (List.range testIdx.length).map _
          = (List.range testIdx.length).map (fun pos => testIdx.getD pos 0) := by
            apply List.map_congr_left
            intro i _
            rfl
        _ = testIdx := by
            have := range_map_getD testIdx
            simpa using this
    · injection h with h1 h2
      cases h2

/-! ## Claim C2 (task detection rule) -/

/-- Modelled from the claim wording, for refinement comparison only: the
task is classification iff the distinct non-missing count is at most
max(10, 5% of the rows). -/
def specTaskRule (cells : List Cell) : Task :=
  if nunique cells ≤ max 10 (cells.length * 5 / 100) then Task.classification
  else Task.regression

/-- Claim C2 amended: the 5%-rule holds for the task train_model detects
(first conjunct, stated over every successful training run), but the
backend preprocessing _target_task follows a different rule: it returns
classification unless the target is numeric-dtyped with more than 20
distinct non-missing values (second conjunct). -/
theorem task_detection_rule :
    (∀ (df : DataFrame) (target algorithm : String)
        (hyp : Option (List (String × HValue))) (fitted : FittedModel)
        (xcols : List Column) (y : List Cell) (evs : List TrainEv) (r : TrainingResult),
      prepare df target = .ok (xcols, y) →
      trainModel df target algorithm hyp fitted = (evs, .ok r) →
      (r.task = Task.classification ↔ nunique y ≤ max 10 (y.length * 5 / 100))) ∧
    (∀ (dtype : Dtype) (cells : List Cell),
      targetTaskB dtype cells = Task.classification ↔
        ¬(dtype = Dtype.numeric ∧ 20 < nunique cells)) := by
  constructor
  · intro df target algorithm hyp fitted xcols y evs r hpre htm
    obtain ⟨xc, yc, ti, tei, ts, name, label, resolved, hp, hs, ha, hh, hf⟩ :=
      trainModel_ok_inv htm
    rw [hpre] at hp
    injection hp with hp
    injection hp with hpx hpy
    subst hpy
    have htask := trainFit_ok_task hf
    rw [htask]
    by_cases hcls : nunique y ≤ max 10 (y.length * 5 / 100)
    · have hb : isClassificationB y = true := by
        simp [isClassificationB, hcls]
      simp [hb, hcls]
    · have hb : isClassificationB y = false := by
        simp [isClassificationB, hcls]
      simp [hb, hcls]
  · intro dtype cells
    unfold targetTaskB
    by_cases h1 : dtype = Dtype.numeric <;> by_cases h2 : 20 < nunique cells <;>
      simp [h1, h2]

/-- The C2 counterexample target: 22 rows, 11 distinct string labels,
every class of size 2. -/
def w2targetCells : List Cell :=
  [Cell.str "a", Cell.str "a", Cell.str "b", Cell.str "b", Cell.str "c",
   Cell.str "c", Cell.str "d", Cell.str "d", Cell.str "e", Cell.str "e",
   Cell.str "f", Cell.str "f", Cell.str "g", Cell.str "g", Cell.str "h",
   Cell.str "h", Cell.str "i", Cell.str "i", Cell.str "j", Cell.str "j",
   Cell.str "k", Cell.str "k"]

def w2xcol : Column :=
  { name := "x", dtype := Dtype.numeric, cells := List.replicate 22 (Cell.num 0) }

def w2df : DataFrame :=
  { cols := [w2xcol,
             { name := "target", dtype := Dtype.object, cells := w2targetCells }]
    nrows := 22 }

def w2req : PreprocessRequestB :=
  { target := "target", split := { train := 1/2 } }

set_option maxHeartbeats 2000000 in
/-- Claim C2 counterexample: preprocessing on a target with 11 distinct
non-missing values over 22 rows detects classification, while the claimed
rule (cardinality at most max(10, 5% of rows) = 10) demands regression,
so the claimed iff fails on the preprocessing path. -/
theorem c2_preprocess_task_counterexample :
    (fitPreprocessB w2df w2req).map PreSummaryB.task = .ok Task.classification ∧
    specTaskRule (w2df.colCells "target") = Task.regression := by
  have hfind : w2df.findCol "target" =
      some { name := "target", dtype := Dtype.object, cells := w2targetCells } := by
    decide
  have hcol : w2df.colCells "target" = w2targetCells := by decide
  have hdrop : dropRows w2df
      (fun i => w2targetCells.getD i Cell.null == Cell.null) = w2df := by
    decide
  have hNR : w2df.nrows = 22 := rfl
  have hfeat : w2df.cols.filter (fun c => c.name != "target") = [w2xcol] := by decide
  have htask : targetTaskB Dtype.object w2targetCells = Task.classification := by decide
  have hnum : ([w2xcol].filter (fun c => c.dtype == Dtype.numeric)).map Column.name
      = ["x"] := by decide
  have hcat : ([w2xcol].filter (fun c => !(c.dtype == Dtype.numeric))).map Column.name
      = [] := by decide
  have hmiss : [w2xcol].map (fun c => (c.name, missingCount c.cells)) = [("x", 0)] := by
    decide
  have hrwm : (List.range 22).countP
      (fun i => [w2xcol].any (fun c => c.cells.getD i Cell.null == Cell.null)) = 0 := by
    decide
  have hnu : nunique w2targetCells = 11 := by decide
  have hmc : minClassCount w2targetCells = 2 := by decide
  have hfloor : ((Int.floor ((1/2 : ℚ) * ((22 : ℕ) : ℚ))).toNat) = 11 := by
    norm_num
    decide
  constructor
  · simp only [fitPreprocessB, w2req, hfind, hcol, hdrop, hNR, hfeat, htask,
      hnum, hcat, hmiss, hrwm, hnu, hmc, hfloor]
    norm_num [splitCheck, splitIndices, Except.map, hnu, hmc, htask]
  · decide

/-- Concrete regression dataset used by the C2 and C4 concrete theorems:
12 rows, 12 distinct numeric target values (task regression since
12 > max(10, 0)). -/
def cells12 : List Cell :=
  [Cell.num 0, Cell.num 1, Cell.num 2, Cell.num 3, Cell.num 4, Cell.num 5,
   Cell.num 6, Cell.num 7, Cell.num 8, Cell.num 9, Cell.num 10, Cell.num 11]

def w4xcol : Column := { name := "x", dtype := Dtype.numeric, cells := cells12 }

def w4df : DataFrame :=
  { cols := [w4xcol, { name := "target", dtype := Dtype.numeric, cells := cells12 }]
    nrows := 12 }

/-- Oracle for the external fitted Ridge estimator on w4df. -/
def w4fit : FittedModel :=
  { predictF := fun _ => Cell.num 0, probaF := fun _ => []
    classesOpt := none, coef := CoefArr.vec [0], featImps := []
    scaleF := fun v => v }

theorem w4_resolveSplit :
    resolveSplit 12 cells12 Task.regression =
      .ok ([0, 1, 2, 3, 4, 5, 6, 7, 8], [9, 10, 11]) := by
  have hceil : natCeilQ ((12 : ℚ) / 5) = 3 := by
    norm_num [natCeilQ]
    decide
  have hTT : ¬ Task.regression = Task.classification := by decide
  norm_num [resolveSplit, trainTestSplitIdx, splitCheck, splitIndices, hceil,
    hTT, min_def, max_def, List.range_succ]

set_option maxHeartbeats 1000000 in
theorem w4_trainFit_isOk :
    (trainFit [w4xcol] cells12 Task.regression [9, 10, 11] linearRegSpec
      "linear_model" "Ridge regression" w4fit "target").2.isOk = true := by
  norm_num [trainFit, featureRow, toNumeric, importanceValuesReg, coefAbs,
    importanceAssoc, npResize, sortByValDesc, insertByValDesc, linearRegSpec,
    ridgeDesc, w4xcol, w4fit, cells12, Except.isOk, Except.toBool,
    List.mapM, List.mapM.loop, List.range_succ]

set_option maxHeartbeats 1000000 in
theorem w4_train_isOk :
    (trainModel w4df "target" "auto" (some [("max_iter", HValue.strV "not-a-number")])
      w4fit).2.isOk = true ∧
    (trainModel w4df "target" "auto" (some [("max_iter", HValue.strV "not-a-number")])
      w4fit).1 = [TrainEv.fitEv] ∧
    (trainModel w4df "target" "auto" none w4fit).2.isOk = true := by
  have hprep : prepare w4df "target" = .ok ([w4xcol], cells12) := by rfl
  have hcls : isClassificationB cells12 = false := by decide
  have halg : resolveAlgorithm Task.regression "auto" =
      .ok (linearRegSpec, "linear_model", "Ridge regression") := by rfl
  have hhypS : applyHyperparameters linearRegSpec
      (some [("max_iter", HValue.strV "not-a-number")]) = .ok [] := by rfl
  have hhypN : applyHyperparameters linearRegSpec
      (none : Option (List (String × HValue))) = .ok [] := by rfl
  have hrun : ∀ hyp, applyHyperparameters linearRegSpec hyp = .ok [] →
      trainModel w4df "target" "auto" hyp w4fit =
        trainFit [w4xcol] cells12 Task.regression [9, 10, 11] linearRegSpec
          "linear_model" "Ridge regression" w4fit "target" := by
    intro hyp hhyp
    simp only [trainModel, hprep, hcls, Bool.false_eq_true, if_false]
    have hnr : w4df.nrows = 12 := rfl
    rw [hnr, w4_resolveSplit]
    dsimp only
    rw [halg]
    dsimp only
    rw [hhyp]
  have hfit := w4_trainFit_isOk
  have hev : (trainFit [w4xcol] cells12 Task.regression [9, 10, 11] linearRegSpec
      "linear_model" "Ridge regression" w4fit "target").1 = [TrainEv.fitEv] := by
    unfold trainFit
    dsimp only
    split
    · rfl
    · rfl
  refine ⟨?_, ?_, ?_⟩
  · rw [hrun _ hhypS]
    exact hfit
  · rw [hrun _ hhypS]
    exact hev
  · rw [hrun _ hhypN]
    exact hfit

/-- Witness for the C2 theorem: on the 12-row regression dataset the rule
decides regression (12 distinct > 10), and the backend task helper on an
object column returns classification. -/
theorem task_detection_rule_witness :
    (trainModel w4df "target" "auto" none w4fit).2.map TrainingResult.task =
      .ok Task.regression ∧
    targetTaskB Dtype.object [] = Task.classification := by
  constructor
  · rcases hh : trainModel w4df "target" "auto" none w4fit with ⟨evs, res⟩
    rcases res with e | r
    · exfalso
      have hok := w4_train_isOk.2.2
      rw [hh] at hok
      simp [Except.isOk, Except.toBool] at hok
    · have hpre : prepare w4df "target" = .ok ([w4xcol], cells12) := by rfl
      have hiff := task_detection_rule.1 w4df "target" "auto" none w4fit
        [w4xcol] cells12 evs r hpre hh
      have hnot : ¬ (nunique cells12 ≤ max 10 (cells12.length * 5 / 100)) := by decide
      have htr : r.task = Task.regression := by
        cases htask : r.task with
        | classification => exact absurd (hiff.mp htask) hnot
        | regression => rfl
      simp [Except.map, htr]
  · exact (task_detection_rule.2 Dtype.object []).mpr (by decide)

/-! ## Claim C10 (no split for small or thin-class data) -/

/-- Claim C10: for fewer than 8 rows, or a classification target with a
class below 2 members, train_model performs no train/test split: the
resolved split is the identity on both sides (test set = full dataset)
and the row-level evaluation table of any successful run covers exactly
the full row range, so metrics and evaluation are in-sample. -/
theorem no_holdout_in_sample_eval :
    ∀ (df : DataFrame) (target : String) (xcols : List Column) (y : List Cell)
      (task : Task),
      prepare df target = .ok (xcols, y) →
      task = (if isClassificationB y then Task.classification else Task.regression) →
      (df.nrows < 8 ∨ (task = Task.classification ∧ minClassCount y < 2)) →
      (resolveSplit df.nrows y task =
        .ok (List.range df.nrows, List.range df.nrows) ∧
       ∀ (algorithm : String) (hyp : Option (List (String × HValue)))
          (fitted : FittedModel) (evs : List TrainEv) (r : TrainingResult),
          trainModel df target algorithm hyp fitted = (evs, .ok r) →
          r.evaluation.map EvalRow.rowIndex = List.range df.nrows) := by
  intro df target xcols y task hpre htask hcond
  have hhold : (decide (8 ≤ df.nrows) &&
      (task != Task.classification || decide (2 ≤ minClassCount y))) = false := by
    rcases hcond with hlt | ⟨hc, hm⟩
    · have h8 : decide (8 ≤ df.nrows) = false := by
        simp only [decide_eq_false_iff_not]
        omega
      simp [h8]
    · have h1 : (task != Task.classification) = false := by simp [hc]
      have h2 : decide (2 ≤ minClassCount y) = false := by
        simp only [decide_eq_false_iff_not]
        omega
      simp [h1, h2]
  have hsplit : resolveSplit df.nrows y task =
      .ok (List.range df.nrows, List.range df.nrows) := by
    unfold resolveSplit
    simp only [hhold, Bool.false_eq_true, if_false]
  refine ⟨hsplit, ?_⟩
  intro algorithm hyp fitted evs r htm
  obtain ⟨xc, yc, ti, tei, ts, name, label, resolved, hp, hs, ha, hh, hf⟩ :=
    trainModel_ok_inv htm
  rw [hpre] at hp
  injection hp with hp
  injection hp with hpx hpy
  subst hpy
  rw [← htask] at hs
  rw [hsplit] at hs
  injection hs with hs
  injection hs with hs1 hs2
  rw [trainFit_ok_eval_rowIndex hf]
  exact hs2.symm

def w10cellsX : List Cell := [Cell.num 1, Cell.num 2, Cell.num 3, Cell.num 4]

def w10cellsY : List Cell := [Cell.num 2, Cell.num 3, Cell.num 4, Cell.num 5]

def w10xcol : Column := { name := "x", dtype := Dtype.numeric, cells := w10cellsX }

def w10df : DataFrame :=
  { cols := [w10xcol, { name := "target", dtype := Dtype.numeric, cells := w10cellsY }]
    nrows := 4 }

/-- Oracle for the external fitted logistic estimator on w10df. -/
def w10fit : FittedModel :=
  { predictF := fun _ => Cell.num 2
    probaF := fun _ => [1/4, 1/4, 1/4, 1/4]
    classesOpt := some [Cell.num 2, Cell.num 3, Cell.num 4, Cell.num 5]
    coef := CoefArr.mat [[1]], featImps := [], scaleF := fun v => v }

theorem classification_trainFit_isOk (xcols : List Column) (y : List Cell)
    (testIdx : List ℕ) (ts : TaskSpecT) (name label : String)
    (fitted : FittedModel) (target : String) :
    (trainFit xcols y Task.classification testIdx ts name label fitted
      target).2.isOk = true ∧
    (trainFit xcols y Task.classification testIdx ts name label fitted
      target).1 = [TrainEv.fitEv] := by
  constructor <;> rfl

theorem w10_train_run :
    trainModel w10df "target" "auto" none w10fit =
      trainFit [w10xcol] w10cellsY Task.classification (List.range 4)
        linearClsSpec "linear_model" "Logistic regression" w10fit "target" := by
  have hprep : prepare w10df "target" = .ok ([w10xcol], w10cellsY) := by rfl
  have hcls : isClassificationB w10cellsY = true := by decide
  have hsplit : resolveSplit 4 w10cellsY Task.classification =
      .ok (List.range 4, List.range 4) := by rfl
  have halg : resolveAlgorithm Task.classification "auto" =
      .ok (linearClsSpec, "linear_model", "Logistic regression") := by rfl
  simp only [trainModel, hprep, hcls, if_true]
  have hnr : w10df.nrows = 4 := rfl
  rw [hnr, hsplit]
  dsimp only
  rw [halg]
  dsimp only
  rfl

theorem w10_train_isOk :
    (trainModel w10df "target" "auto" none w10fit).2.isOk = true := by
  rw [w10_train_run]
  exact (classification_trainFit_isOk _ _ _ _ _ _ _ _).1

/-- Witness for the C10 theorem at a 4-row dataset (both conditions hold:
fewer than 8 rows and every class a singleton): the split is the identity
and the evaluation table covers rows 0..3. -/
theorem no_holdout_in_sample_eval_witness :
    resolveSplit w10df.nrows w10cellsY Task.classification =
      .ok (List.range 4, List.range 4) ∧
    (trainModel w10df "target" "auto" none w10fit).2.map
      (fun r => r.evaluation.map EvalRow.rowIndex) = .ok (List.range 4) := by
  have hpre : prepare w10df "target" = .ok ([w10xcol], w10cellsY) := by rfl
  have hmain := no_holdout_in_sample_eval w10df "target" [w10xcol] w10cellsY
    Task.classification hpre (by decide) (Or.inl (by decide))
  constructor
  · exact hmain.1
  · rcases hh : trainModel w10df "target" "auto" none w10fit with ⟨evs, res⟩
    rcases res with e | r
    · exfalso
      have hok := w10_train_isOk
      rw [hh] at hok
      simp [Except.isOk, Except.toBool] at hok
    · have := hmain.2 "auto" none w10fit evs r hh
      simp only [Except.map]
      rw [this]
      rfl

/-! ## Claim C3 (stratification fallback scenario) -/

/-- The spec scenario target: classes [A,A,A,A,A,A,A,B]. -/
def c3y : List Cell :=
  [Cell.str "A", Cell.str "A", Cell.str "A", Cell.str "A", Cell.str "A",
   Cell.str "A", Cell.str "A", Cell.str "B"]

def c3xcol : Column :=
  { name := "feat", dtype := Dtype.numeric
    cells := [Cell.num 0, Cell.num 1, Cell.num 2, Cell.num 3, Cell.num 4,
              Cell.num 5, Cell.num 6, Cell.num 7] }

def c3df : DataFrame :=
  { cols := [c3xcol, { name := "target", dtype := Dtype.object, cells := c3y }]
    nrows := 8 }

def c3req : PreprocessRequestB := { target := "target" }

/-- Oracle for the external fitted logistic estimator on c3df. -/
def c3fit : FittedModel :=
  { predictF := fun _ => Cell.str "A"
    probaF := fun _ => [1/2, 1/2]
    classesOpt := some [Cell.str "A", Cell.str "B"]
    coef := CoefArr.mat [[1]], featImps := [], scaleF := fun v => v }

/-- fit_preprocess on the [7, 1] class scenario with train fraction 0.8
raises the sklearn stratification error: the target has more than one
distinct value, so stratify is passed, and the singleton class fails the
least-populated-class requirement (no fallback exists). -/
theorem c3_preprocess_error_aux :
    fitPreprocessB c3df c3req =
      .error (.valueE "The least populated class in y has fewer than 2 members") := by
  have hfind : c3df.findCol "target" =
      some { name := "target", dtype := Dtype.object, cells := c3y } := by decide
  have hcol : c3df.colCells "target" = c3y := by decide
  have hdrop : dropRows c3df
      (fun i => c3y.getD i Cell.null == Cell.null) = c3df := by decide
  have hNR : c3df.nrows = 8 := rfl
  have hfeat : c3df.cols.filter (fun c => c.name != "target") = [c3xcol] := by decide
  have htask : targetTaskB Dtype.object c3y = Task.classification := by decide
  have hnum : ([c3xcol].filter (fun c => c.dtype == Dtype.numeric)).map Column.name
      = ["feat"] := by decide
  have hcat : ([c3xcol].filter (fun c => !(c.dtype == Dtype.numeric))).map Column.name
      = [] := by decide
  have hmiss : [c3xcol].map (fun c => (c.name, missingCount c.cells)) = [("feat", 0)] := by
    decide
  have hrwm : (List.range 8).countP
      (fun i => [c3xcol].any (fun c => c.cells.getD i Cell.null == Cell.null)) = 0 := by
    decide
  have hnu : nunique c3y = 2 := by decide
  have hmc : minClassCount c3y = 1 := by decide
  have hfloor : ((Int.floor ((4/5 : ℚ) * ((8 : ℕ) : ℚ))).toNat) = 6 := by
    norm_num
    decide
  simp only [fitPreprocessB, c3req, hfind, hcol, hdrop, hNR, hfeat, htask,
    hnum, hcat, hmiss, hrwm, hnu, hmc, hfloor]
  norm_num [splitCheck, splitIndices, hnu, hmc, htask]

/-- Claim C3 counterexample: the claim says preprocessing on target
classes [7, 1] with train fraction 0.8 does not raise; the backend
fit_preprocess raises the stratification error (there is no fallback in
that function). -/
theorem c3_preprocess_counterexample :
    fitPreprocessB c3df c3req =
      .error (.valueE "The least populated class in y has fewer than 2 members") :=
  c3_preprocess_error_aux

theorem c3_train_run :
    trainModel c3df "target" "auto" none c3fit =
      trainFit [c3xcol] c3y Task.classification (List.range 8)
        linearClsSpec "linear_model" "Logistic regression" c3fit "target" := by
  have hprep : prepare c3df "target" = .ok ([c3xcol], c3y) := by rfl
  have hcls : isClassificationB c3y = true := by decide
  have hsplit : resolveSplit 8 c3y Task.classification =
      .ok (List.range 8, List.range 8) := by rfl
  have halg : resolveAlgorithm Task.classification "auto" =
      .ok (linearClsSpec, "linear_model", "Logistic regression") := by rfl
  simp only [trainModel, hprep, hcls, if_true]
  have hnr : c3df.nrows = 8 := rfl
  rw [hnr, hsplit]
  dsimp only
  rw [halg]
  dsimp only
  rfl

/-- Claim C3 amended: on the [7, 1] class scenario the core train_model
does not raise, but only because the singleton class disables the holdout
split entirely: the run succeeds with task classification and an
evaluation table over all 8 rows (in-sample).  The backend fit_preprocess
stratifies whenever the classification target has more than one distinct
value and raises with no fallback. -/
theorem c3_train_no_raise_preprocess_raises :
    (trainModel c3df "target" "auto" none c3fit).2.map
        (fun r => (r.task, r.evaluation.map EvalRow.rowIndex)) =
      .ok (Task.classification, List.range 8) ∧
    fitPreprocessB c3df c3req =
      .error (.valueE "The least populated class in y has fewer than 2 members") := by
  constructor
  · rw [c3_train_run]
    rfl
  · exact c3_preprocess_error_aux

/-! ## Claim C4 (invalid max_iter hyperparameter) -/

/-- Claim C4 counterexample: with a regression target the max_iter key is
not in the resolved schema, so the override {max_iter: not-a-number} is
silently ignored: training succeeds and the estimator fit runs, refuting
that the call always fails with InvalidHyperparameter. -/
theorem c4_regression_ignores_max_iter :
    (trainModel w4df "target" "auto"
      (some [("max_iter", HValue.strV "not-a-number")]) w4fit).2.isOk = true ∧
    (trainModel w4df "target" "auto"
      (some [("max_iter", HValue.strV "not-a-number")]) w4fit).1 = [TrainEv.fitEv] :=
  ⟨w4_train_isOk.1, w4_train_isOk.2.1⟩

theorem applyHypers_max_iter_bad (s : String)
    (hparse : parseFloatQ (strTrim s) = none) :
    applyHyperparameters linearClsSpec (some [("max_iter", HValue.strV s)]) =
      .error (.tabular "Hyperparameter max_iter must be an integer") := by
  simp only [applyHyperparameters, applyHypersGo, lookupParam, linearClsSpec,
    List.find?, List.isEmpty, coerceOverride, maxIterPD, pyFloat, hparse]
  rfl

/-- Claim C4 amended: when the detected task is classification and the
algorithm resolves to linear_model (whose schema declares max_iter), a
non-numeric max_iter override fails with the InvalidHyperparameter error
and no estimator fit is performed (empty event trace); for schemas
without the key (for example any regression target) the override is
silently ignored and training proceeds (see the counterexample). -/
theorem c4_max_iter_invalid_fails_before_fit :
    ∀ (df : DataFrame) (target algorithm s : String) (fitted : FittedModel)
      (xcols : List Column) (y : List Cell) (p : List ℕ × List ℕ),
      prepare df target = .ok (xcols, y) →
      isClassificationB y = true →
      normalizeRequested algorithm = "linear_model" →
      resolveSplit df.nrows y Task.classification = .ok p →
      parseFloatQ (strTrim s) = none →
      trainModel df target algorithm (some [("max_iter", HValue.strV s)]) fitted =
        ([], .error (.tabular "Hyperparameter max_iter must be an integer")) := by
  intro df target algorithm s fitted xcols y p hpre hcls hnorm hsplit hparse
  obtain ⟨ti, tei⟩ := p
  have halg : resolveAlgorithm Task.classification algorithm =
      .ok (linearClsSpec, "linear_model", "Logistic regression") := by
    unfold resolveAlgorithm
    rw [hnorm]
    rfl
  unfold trainModel
  rw [hpre]
  dsimp only
  simp only [hcls, if_true]
  rw [hsplit]
  dsimp only
  rw [halg]
  dsimp only
  rw [applyHypers_max_iter_bad s hparse]

/-- Witness for the C4 amended theorem at the concrete classification
dataset c3df with the literal override from the spec scenario. -/
theorem c4_max_iter_invalid_fails_before_fit_witness :
    trainModel c3df "target" "auto"
      (some [("max_iter", HValue.strV "not-a-number")]) c3fit =
      ([], .error (.tabular "Hyperparameter max_iter must be an integer")) :=
  c4_max_iter_invalid_fails_before_fit c3df "target" "auto" "not-a-number" c3fit
    [c3xcol] c3y (List.range 8, List.range 8) rfl (by decide) (by decide) rfl
    (by decide)

/-! ## Claim C6 (feature importance rule) -/

/-- The importance rule exactly as the claim words it: the
feature_importances_ attribute if present, otherwise the absolute value
of coef_ (averaged across rows when multi-output), otherwise all zeros
with one entry per feature column. -/
def claimImportanceValues (desc : EstimatorDesc) (coef : CoefArr)
    (featImps : List ℚ) (k : ℕ) : List ℚ :=
  if desc.hasFeatureImportances then featImps
  else if desc.hasCoef then
    match coefAbs coef with
    | CoefArr.vec v => v
    | CoefArr.mat m => colMeans m
  else List.replicate k 0

/-- Claim C6 counterexample: the backend _feature_importances reports the
raw coef_ values without taking absolute values (a Ridge estimator with
coef_ = [-2] reports -2 where the claim demands |-2| = 2), and for an
estimator with neither attribute it reports an empty mapping rather than
one zero per feature column. -/
theorem c6_importance_counterexample :
    featureImportancesB ridgeDesc (CoefArr.vec [-2]) [] ["x"] = [("x", -2)] ∧
    claimImportanceValues ridgeDesc (CoefArr.vec [-2]) [] 1 = [2] ∧
    (-2 : ℚ) ≠ 2 ∧
    featureImportancesB ⟨false, false, false⟩ (CoefArr.vec []) [] ["x"] = [] ∧
    claimImportanceValues ⟨false, false, false⟩ (CoefArr.vec []) [] 1 = [0] := by
  refine ⟨rfl, ?_, by norm_num, rfl, rfl⟩
  norm_num [claimImportanceValues, coefAbs, ridgeDesc]

/-- Claim C6 amended: the core train_model checks coef_ before
feature_importances_ (the reverse of the claimed order) but no registered
estimator exposes both attributes, so on every estimator the core
actually trains the classification importance equals the claimed rule,
and the regression importance equals it whenever coef_ is 1-D (the
regression branch omits row-averaging, which only 2-D coef_ could
expose); the backend _feature_importances follows the claimed rule only
in the feature_importances_ case, taking raw (not absolute) coef_ values
and an empty mapping otherwise (see the counterexample). -/
theorem c6_feature_importance_rule :
    (∀ (desc : EstimatorDesc) (coef : CoefArr) (featImps : List ℚ) (k : ℕ),
      desc.hasCoef = false ∨ desc.hasFeatureImportances = false →
      importanceValuesCls desc coef featImps k =
        claimImportanceValues desc coef featImps k) ∧
    (∀ (desc : EstimatorDesc) (v : List ℚ) (featImps : List ℚ) (k : ℕ),
      desc.hasCoef = false ∨ desc.hasFeatureImportances = false →
      importanceValuesReg desc (CoefArr.vec v) featImps k =
        claimImportanceValues desc (CoefArr.vec v) featImps k) ∧
    (∀ p ∈ algorithmSpecs,
      (p.2.cls.est.hasCoef && p.2.cls.est.hasFeatureImportances) = false ∧
      (p.2.reg.est.hasCoef && p.2.reg.est.hasFeatureImportances) = false) ∧
    (∀ (desc : EstimatorDesc) (coef : CoefArr) (featImps : List ℚ)
      (names : List String),
      desc.hasFeatureImportances = true →
      featureImportancesB desc coef featImps names =
        List.zip names (claimImportanceValues desc coef featImps names.length)) := by
  refine ⟨?_, ?_, ?_, ?_⟩
  · intro desc coef featImps k h
    rcases desc with ⟨hc, hfi, hp⟩
    simp only at h
    rcases h with h | h <;> subst h
    · cases hfi <;> simp [importanceValuesCls, claimImportanceValues]
    · cases hc <;> simp [importanceValuesCls, claimImportanceValues]
  · intro desc v featImps k h
    rcases desc with ⟨hc, hfi, hp⟩
    simp only at h
    rcases h with h | h <;> subst h
    · cases hfi <;> simp [importanceValuesReg, claimImportanceValues, coefAbs]
    · cases hc <;> simp [importanceValuesReg, claimImportanceValues, coefAbs]
  · intro p hp
    simp only [algorithmSpecs, List.mem_cons, List.not_mem_nil, or_false] at hp
    rcases hp with rfl | rfl | rfl <;> exact ⟨rfl, rfl⟩
  · intro desc coef featImps names h
    simp [featureImportancesB, claimImportanceValues, h]

/-- Witness for the C6 amended theorem: the logistic estimator (coef_
only) at a 2-D coefficient row, the ridge estimator at a 1-D coefficient,
the linear_model registry entry, and a forest estimator in the backend;
the concrete values also evaluate. -/
theorem c6_feature_importance_rule_witness :
    (importanceValuesCls logisticDesc (CoefArr.mat [[3, -4]]) [] 2 =
      claimImportanceValues logisticDesc (CoefArr.mat [[3, -4]]) [] 2 ∧
     importanceValuesCls logisticDesc (CoefArr.mat [[3, -4]]) [] 2 = [3, 4]) ∧
    (importanceValuesReg ridgeDesc (CoefArr.vec [-5]) [] 1 =
      claimImportanceValues ridgeDesc (CoefArr.vec [-5]) [] 1 ∧
     importanceValuesReg ridgeDesc (CoefArr.vec [-5]) [] 1 = [5]) ∧
    (forestClsDesc.hasCoef && forestClsDesc.hasFeatureImportances) = false ∧
    featureImportancesB forestClsDesc (CoefArr.vec []) [7/10, 3/10]
      ["a", "b"] =
      List.zip ["a", "b"]
        (claimImportanceValues forestClsDesc (CoefArr.vec []) [7/10, 3/10] 2) := by
  refine ⟨⟨?_, ?_⟩, ⟨?_, ?_⟩, ?_, ?_⟩
  · exact c6_feature_importance_rule.1 logisticDesc (CoefArr.mat [[3, -4]]) [] 2
      (Or.inr rfl)
  · norm_num [importanceValuesCls, coefAbs, colMeans, logisticDesc,
      List.range_succ]
  · exact c6_feature_importance_rule.2.1 ridgeDesc [-5] [] 1 (Or.inr rfl)
  · norm_num [importanceValuesReg, coefAbs, ridgeDesc]
  · exact ((c6_feature_importance_rule.2.2.1 ("random_forest",
      { label := "Random forest ensemble", cls := forestClsSpec, reg := forestRegSpec })
      (by simp [algorithmSpecs])).1)
  · exact c6_feature_importance_rule.2.2.2 forestClsDesc (CoefArr.vec [])
      [7/10, 3/10] ["a", "b"] rfl

/-! ## Claim C7 (predict_single contract) -/

theorem prepare_ok_xcols_ne_nil {df : DataFrame} {target : String}
    {xcols : List Column} {y : List Cell}
    (h : prepare df target = .ok (xcols, y)) : xcols ≠ [] := by
  unfold prepare at h
  by_cases h1 : df.hasCol target
  · simp only [h1, Bool.not_true, Bool.false_eq_true, if_false] at h
    by_cases h2 : (df.cols.filter (fun c => c.name != target)).isEmpty || df.nrows == 0 <;>
      simp only [h2, if_true, if_false, Bool.false_eq_true] at h
    · cases h
    · by_cases h3 : ((df.cols.filter (fun c => c.name != target)).filter
          (fun c => c.dtype == Dtype.numeric)).isEmpty <;>
        simp only [h3, if_true, if_false, Bool.false_eq_true] at h
      · cases h
      · injection h with h
        injection h with hx hy
        exact fun hnil => h3 (by rw [hx, hnil]; rfl)
  · simp [h1] at h

theorem trainFit_ok_featureColumns {xcols : List Column} {y : List Cell}
    {task : Task} {testIdx : List ℕ} {ts : TaskSpecT} {name label : String}
    {fitted : FittedModel} {target : String} {evs : List TrainEv}
    {r : TrainingResult}
    (h : trainFit xcols y task testIdx ts name label fitted target = (evs, .ok r)) :
    r.featureColumns = xcols.map Column.name := by
  unfold trainFit at h
  cases task with
  | classification =>
    dsimp only at h
    injection h with h1 h2
    injection h2 with h2
    rw [← h2]
  | regression =>
    dsimp only at h
    split at h
    · injection h with h1 h2
      injection h2 with h2
      rw [← h2]
    · injection h with h1 h2
      cases h2

theorem buildFeatureVecGo_ok_of_present (features : List (String × Cell)) :
    ∀ cols : List String,
      (∀ c ∈ cols, ∃ q : ℚ, features.lookup c = some (Cell.num q)) →
      ∃ qs : List ℚ, buildFeatureVecGo features cols = .ok qs := by
  intro cols
  induction cols with
  | nil => exact fun _ => ⟨[], rfl⟩
  | cons c rest ih =>
    intro hall
    obtain ⟨q, hq⟩ := hall c (List.mem_cons_self c rest)
    obtain ⟨qs, hqs⟩ := ih (fun d hd => hall d (List.mem_cons_of_mem c hd))
    refine ⟨q :: qs, ?_⟩
    simp [buildFeatureVecGo, hq, normaliseFeatureValue, hqs, Except.bind, bind,
      pure, Except.pure]

theorem foldl_max_bounds (lo hi : ℚ) :
    ∀ (xs : List ℚ) (a : ℚ), lo ≤ a → a ≤ hi →
      (∀ x ∈ xs, lo ≤ x ∧ x ≤ hi) →
      lo ≤ xs.foldl max a ∧ xs.foldl max a ≤ hi := by
  intro xs
  induction xs with
  | nil => exact fun a h1 h2 _ => ⟨h1, h2⟩
  | cons x xs ih =>
    intro a h1 h2 hall
    have hx := hall x (List.mem_cons_self x xs)
    have := ih (max a x) (le_trans h1 (le_max_left a x)) (max_le h2 hx.2)
      (fun y hy => hall y (List.mem_cons_of_mem x hy))
    simpa [List.foldl_cons] using this

theorem listMaxQ_bounds {l : List ℚ} (hne : l ≠ [])
    (hall : ∀ x ∈ l, 0 ≤ x ∧ x ≤ 1) :
    0 ≤ listMaxQ l ∧ listMaxQ l ≤ 1 := by
  cases l with
  | nil => exact absurd rfl hne
  | cons x xs =>
    have hx := hall x (List.mem_cons_self x xs)
    exact foldl_max_bounds 0 1 xs x hx.1 hx.2
      (fun y hy => hall y (List.mem_cons_of_mem x hy))

theorem c3_train_isOk :
    (trainModel c3df "target" "auto" none c3fit).2.isOk = true := by
  rw [c3_train_run]
  exact (classification_trainFit_isOk _ _ _ _ _ _ _ _).1

/-- Claim C7: with no completed training run (empty cache) predict_single
always fails with ModelNotReady; a successful training call caches its
result (and that result exposes a non-empty feature column list);
predict_single on any cached result — classification or regression, with
or without probabilities — succeeds whenever every required feature
column is present as a finite numeric value (given the library contract
that classes_, when exposed, is never the empty array: the only failure
past feature assembly is the source's max() over the class-probability
map, reached only when a non-empty probability row meets empty classes);
and for a classification task with non-empty class probabilities the
payload carries a max-probability confidence inside [0,1] (given the
contract that probability rows are non-empty with entries in [0,1]). -/
theorem c7_predict_single_contract :
    (∀ features : List (String × Cell),
      predictSingle none features =
        .error (.modelNotReady "Train a model before running inference")) ∧
    (∀ (df : DataFrame) (target algorithm : String)
       (hyp : Option (List (String × HValue))) (fitted : FittedModel)
       (st st2 : Option TrainingResult) (evs : List TrainEv) (r : TrainingResult),
      trainOnDataset df target algorithm hyp fitted st = (st2, evs, .ok r) →
      st2 = some r ∧ r.featureColumns ≠ []) ∧
    (∀ (r : TrainingResult) (features : List (String × Cell)),
      r.featureColumns ≠ [] →
      (∀ c ∈ r.featureColumns, ∃ q : ℚ, features.lookup c = some (Cell.num q)) →
      (∀ classes : List Cell, r.estimator.classesOpt = some classes → classes ≠ []) →
      ∃ payload : PredictPayload,
        predictSingle (some r) features = .ok payload) ∧
    (∀ (r : TrainingResult) (features : List (String × Cell)) (classes : List Cell),
      r.featureColumns ≠ [] →
      (∀ c ∈ r.featureColumns, ∃ q : ℚ, features.lookup c = some (Cell.num q)) →
      r.task = Task.classification →
      r.estimatorDesc.hasPredictProba = true →
      r.estimator.classesOpt = some classes →
      classes ≠ [] →
      (∀ v : List (Option ℚ), r.estimator.probaF v ≠ [] ∧
        ∀ p ∈ r.estimator.probaF v, 0 ≤ p ∧ p ≤ 1) →
      ∃ (payload : PredictPayload) (conf : ℚ),
        predictSingle (some r) features = .ok payload ∧
        payload.confidence = some conf ∧ 0 ≤ conf ∧ conf ≤ 1) := by
  refine ⟨fun _ => rfl, ?_, ?_, ?_⟩
  · intro df target algorithm hyp fitted st st2 evs r h
    unfold trainOnDataset at h
    rcases htm : trainModel df target algorithm hyp fitted with ⟨evs0, res⟩
    rw [htm] at h
    rcases res with e | r0
    · dsimp only at h
      injection h with hA hB
      injection hB with hB1 hB2
      cases hB2
    · dsimp only at h
      injection h with hA hB
      injection hB with hB1 hB2
      injection hB2 with hB2
      subst hB2
      refine ⟨hA.symm, ?_⟩
      obtain ⟨xcols, yc, ti, tei, ts, name, label, resolved, hp, hs, ha, hh, hf⟩ :=
        trainModel_ok_inv htm
      have hxne := prepare_ok_xcols_ne_nil hp
      rw [trainFit_ok_featureColumns hf]
      intro hmapnil
      rcases xcols with _ | ⟨a, l⟩
      · exact hxne rfl
      · simp at hmapnil
  · intro r features hne hfeat hclne
    have hie : r.featureColumns.isEmpty = false := by
      cases h0 : r.featureColumns
      · exact absurd h0 hne
      · rfl
    obtain ⟨qs, hqs⟩ := buildFeatureVecGo_ok_of_present features r.featureColumns hfeat
    obtain ⟨vecE, hbm⟩ : ∃ v, buildFeatureMatrixRow r features = .ok v :=
      ⟨(if r.scaler then r.estimator.scaleF (qs.map some) else qs.map some), by
        simp only [buildFeatureMatrixRow, hie, Bool.false_eq_true, if_false, hqs]⟩
    unfold predictSingle
    dsimp only
    rw [hbm]
    dsimp only
    cases hb : (r.task == Task.classification && r.estimatorDesc.hasPredictProba) with
    | false =>
      simp only [Bool.false_eq_true, if_false]
      exact ⟨_, rfl⟩
    | true =>
      simp only [if_true]
      cases hl : ((r.estimator.probaF vecE).length == 0) with
      | true =>
        simp only [if_true]
        exact ⟨_, rfl⟩
      | false =>
        simp only [Bool.false_eq_true, if_false]
        cases hco : r.estimator.classesOpt with
        | none =>
          exact ⟨_, rfl⟩
        | some classes =>
          have hcl : classes ≠ [] := hclne classes hco
          have hpne : r.estimator.probaF vecE ≠ [] := by
            intro h0
            rw [h0] at hl
            simp at hl
          have hzipE : (List.zip classes (r.estimator.probaF vecE)).isEmpty = false := by
            rcases h0 : classes with _ | ⟨c0, cs⟩
            · exact absurd h0 hcl
            · rcases h1 : r.estimator.probaF vecE with _ | ⟨p0, ps⟩
              · exact absurd h1 hpne
              · rfl
          dsimp only
          rw [hzipE]
          simp only [Bool.false_eq_true, if_false]
          exact ⟨_, rfl⟩
  · intro r features classes hne hfeat hcls hpp hclasses hclne hproba
    have hie : r.featureColumns.isEmpty = false := by
      cases h0 : r.featureColumns
      · exact absurd h0 hne
      · rfl
    obtain ⟨qs, hqs⟩ := buildFeatureVecGo_ok_of_present features r.featureColumns hfeat
    obtain ⟨vecE, hbm⟩ : ∃ v, buildFeatureMatrixRow r features = .ok v :=
      ⟨(if r.scaler then r.estimator.scaleF (qs.map some) else qs.map some), by
        simp only [buildFeatureMatrixRow, hie, Bool.false_eq_true, if_false, hqs]⟩
    have hprow := hproba vecE
    have hlenF : ((r.estimator.probaF vecE).length == 0) = false := by
      rcases h0 : r.estimator.probaF vecE with _ | ⟨p, ps⟩
      · exact absurd h0 hprow.1
      · rfl
    have hzipne : List.zip classes (r.estimator.probaF vecE) ≠ [] := by
      rcases h0 : classes with _ | ⟨c0, cs⟩
      · exact absurd h0 hclne
      · rcases h1 : r.estimator.probaF vecE with _ | ⟨p0, ps⟩
        · exact absurd h1 hprow.1
        · simp [List.zip]
    have hzipE : (List.zip classes (r.estimator.probaF vecE)).isEmpty = false := by
      cases h0 : List.zip classes (r.estimator.probaF vecE)
      · exact absurd h0 hzipne
      · rfl
    have hmapne : (List.zip classes (r.estimator.probaF vecE)).map Prod.snd ≠ [] := by
      intro h0
      rcases h1 : List.zip classes (r.estimator.probaF vecE) with _ | ⟨z, zs⟩
      · exact hzipne h1
      · rw [h1] at h0
        simp at h0
    have hmapall : ∀ x ∈ (List.zip classes (r.estimator.probaF vecE)).map Prod.snd,
        0 ≤ x ∧ x ≤ 1 := by
      intro x hx
      obtain ⟨z, hz, hzx⟩ := List.mem_map.mp hx
      have := (List.of_mem_zip hz).2
      rw [← hzx]
      exact hprow.2 z.2 this
    have hbounds := listMaxQ_bounds hmapne hmapall
    refine ⟨{ task := r.task, target := r.targetColumn
              featureColumns := r.featureColumns
              prediction := r.estimator.predictF vecE
              probabilities := some (List.zip classes (r.estimator.probaF vecE))
              confidence := some (listMaxQ
                ((List.zip classes (r.estimator.probaF vecE)).map Prod.snd)) },
      listMaxQ ((List.zip classes (r.estimator.probaF vecE)).map Prod.snd),
      ?_, rfl, hbounds.1, hbounds.2⟩
    unfold predictSingle
    dsimp only
    rw [hbm]
    dsimp only
    rw [hcls, hpp]
    simp only [beq_self_eq_true, Bool.and_self, if_true]
    rw [hlenF]
    simp only [Bool.false_eq_true, if_false]
    rw [hclasses]
    dsimp only
    rw [hzipE]
    simp only [Bool.false_eq_true, if_false]

/-- Oracle estimator for the C7 witness: probability rows [3/4, 1/4]. -/
def w7fit : FittedModel :=
  { predictF := fun _ => Cell.num 1
    probaF := fun _ => [3/4, 1/4]
    classesOpt := some [Cell.num 0, Cell.num 1]
    coef := CoefArr.mat [[1, 1]], featImps := [], scaleF := fun v => v }

/-- A cached classification training result for the C7 witness. -/
def w7r : TrainingResult :=
  { task := Task.classification, algorithm := "linear_model"
    algorithmLabel := "Logistic regression", metrics := []
    featureImportance := [], evaluation := [], evaluationColumns := []
    estimator := w7fit, estimatorDesc := logisticDesc, scaler := true
    featureColumns := ["feat1", "feat2"], targetColumn := "target" }

def w7features : List (String × Cell) :=
  [("feat1", Cell.num (1/2)), ("feat2", Cell.num (1/2))]

/-- Oracle estimator for the regression half of the C7 witness: a fitted
Ridge exposes no predict_proba and no classes_. -/
def w7fitReg : FittedModel :=
  { predictF := fun _ => Cell.num (3/2)
    probaF := fun _ => []
    classesOpt := none
    coef := CoefArr.vec [1], featImps := [], scaleF := fun v => v }

/-- A cached regression (Ridge) training result for the C7 witness. -/
def w7reg : TrainingResult :=
  { task := Task.regression, algorithm := "linear_model"
    algorithmLabel := "Ridge regression", metrics := []
    featureImportance := [], evaluation := [], evaluationColumns := []
    estimator := w7fitReg, estimatorDesc := ridgeDesc, scaler := true
    featureColumns := ["feat"], targetColumn := "target" }

/-- Witness for C7: the empty cache rejects, a concrete successful
training run caches its result, a concrete prediction on a cached
regression (probability-free) result succeeds, and a concrete prediction
on the classification result w7r yields a confidence inside [0,1]. -/
theorem c7_predict_single_contract_witness :
    predictSingle none w7features =
      .error (.modelNotReady "Train a model before running inference") ∧
    (∃ st2 evs r, trainOnDataset c3df "target" "auto" none c3fit none =
        (st2, evs, .ok r) ∧ st2 = some r ∧ r.featureColumns ≠ []) ∧
    (∃ payload, predictSingle (some w7reg) [("feat", Cell.num 2)] = .ok payload) ∧
    (∃ payload conf, predictSingle (some w7r) w7features = .ok payload ∧
      payload.confidence = some conf ∧ 0 ≤ conf ∧ conf ≤ 1) := by
  refine ⟨c7_predict_single_contract.1 w7features, ?_, ?_, ?_⟩
  · rcases hh : trainModel c3df "target" "auto" none c3fit with ⟨evs, res⟩
    rcases res with e | r
    · exfalso
      have hok := c3_train_isOk
      rw [hh] at hok
      simp [Except.isOk, Except.toBool] at hok
    · have htod : trainOnDataset c3df "target" "auto" none c3fit none =
          (some r, evs, .ok r) := by
        unfold trainOnDataset
        rw [hh]
      exact ⟨some r, evs, r, htod,
        c7_predict_single_contract.2.1 c3df "target" "auto" none c3fit none
          (some r) evs r htod⟩
  · refine c7_predict_single_contract.2.2.1 w7reg [("feat", Cell.num 2)]
      (by simp [w7reg]) ?_ ?_
    · intro c hc
      simp only [w7reg, List.mem_cons, List.not_mem_nil, or_false] at hc
      rcases hc with rfl
      exact ⟨2, rfl⟩
    · intro classes h
      simp [w7reg, w7fitReg] at h
  · refine c7_predict_single_contract.2.2.2 w7r w7features [Cell.num 0, Cell.num 1]
      (by simp [w7r]) ?_ rfl rfl rfl (by simp) ?_
    · intro c hc
      simp only [w7r, List.mem_cons, List.not_mem_nil, or_false] at hc
      rcases hc with rfl | rfl
      · exact ⟨1/2, rfl⟩
      · exact ⟨1/2, rfl⟩
    · intro v
      constructor
      · simp [w7r, w7fit]
      · intro p hp
        simp only [w7r, w7fit, List.mem_cons, List.not_mem_nil, or_false] at hp
        rcases hp with rfl | rfl
        · constructor <;> norm_num
        · constructor <;> norm_num

/-! ## Claim C8 (dataset load limits, backend services module)

dataset_load_from_bytes and _limits_from_settings live in
src/plugins/tabular_ml/backend/services.py; the two helpers they call,
enforce_dataframe_limits and configure_session_store, are imported from
the backend utils module but are absent from the source tree, so those
two are modelled from the spec and the limits tests. -/

/-- Typed load-time errors of the configuration layer (spec error
taxonomy: DatasetTooLarge, TooManySessions). -/
inductive ErrS where
  | datasetTooLarge (msg : String)
  | tooManySessions (msg : String)
deriving DecidableEq, Repr

structure LimitsB where
  maxRows : ℤ
  maxColumns : ℤ
  maxSessions : ℤ
deriving DecidableEq, Repr

/-- _limits_from_settings: each limit read from the settings mapping with
defaults 100000 / 200 / 64.  Settings carry integers here; the int()
coercion-with-fallback for malformed values is outside every claim.
`[src backend/services.py 229-248]` -/
def limitsFromSettings (settings : List (String × ℤ)) : LimitsB :=
  { maxRows := (settings.lookup "max_rows").getD 100000
    maxColumns := (settings.lookup "max_columns").getD 200
    maxSessions := (settings.lookup "max_sessions").getD 64 }

/-- The session store observed through its capacity and held sessions. -/
structure SessState where
  capacity : ℕ
  sessions : List (String × DataFrame)
deriving DecidableEq, Repr

/-- Modelled from the spec: configure_session_store installs the
configured max_sessions capacity on the shared session store and touches
nothing else. -/
def configureSessionStore (st : SessState) (cap : ℤ) : SessState :=
  { st with capacity := cap.toNat }

/-- Modelled from the spec: enforce_dataframe_limits rejects a dataframe
exceeding the configured max_rows or max_columns with DatasetTooLarge
(the limits test asserts the column message mentions "columns"). -/
def enforceDataframeLimits (df : DataFrame) (maxRows maxColumns : ℤ) :
    Except ErrS Unit :=
  if maxRows < (df.nrows : ℤ) then
    .error (.datasetTooLarge "Dataset has too many rows")
  else if maxColumns < (df.cols.length : ℤ) then
    .error (.datasetTooLarge "Dataset has too many columns")
  else .ok ()

/-- Modelled from the spec: session creation against the capacity —
TooManySessions once the store is full (the limits test asserts the
message mentions "too many active sessions"), otherwise the dataframe is
stored (as a copy; aliasing is the subject of C9) under the fresh id. -/
def sessionCreate (st : SessState) (sid : String) (df : DataFrame) :
    Except ErrS (SessState × String) :=
  if st.capacity ≤ st.sessions.length then
    .error (.tooManySessions "Too many active sessions")
  else .ok ({ st with sessions := st.sessions ++ [(sid, df)] }, sid)

/-- dataset_load_from_bytes after CSV parsing: resolve limits, configure
the store capacity, enforce the dataframe limits, then create the
session; the returned state is the store as the caller observes it
afterwards.  `[src backend/services.py 267-281]` -/
def datasetLoadFromBytes (st : SessState) (df : DataFrame)
    (settings : List (String × ℤ)) (sid : String) :
    SessState × Except ErrS String :=
  let limits := limitsFromSettings settings
  let st1 := configureSessionStore st limits.maxSessions
  match enforceDataframeLimits df limits.maxRows limits.maxColumns with
  | .error e => (st1, .error e)
  | .ok _ =>
    match sessionCreate st1 sid df with
    | .error e => (st1, .error e)
    | .ok (st2, s) => (st2, .ok s)

/-- Claim C8: a dataset whose column count exceeds the configured
max_columns limit (and whose row count is within max_rows, the check that
runs first) is always rejected with DatasetTooLarge, no session id is
returned, and the stored sessions are unchanged. -/
theorem c8_max_columns_load_rejected :
    ∀ (st : SessState) (df : DataFrame) (settings : List (String × ℤ))
      (sid : String),
      (limitsFromSettings settings).maxColumns < (df.cols.length : ℤ) →
      (df.nrows : ℤ) ≤ (limitsFromSettings settings).maxRows →
      (datasetLoadFromBytes st df settings sid).2 =
        .error (.datasetTooLarge "Dataset has too many columns") ∧
      (datasetLoadFromBytes st df settings sid).1.sessions = st.sessions := by
  intro st df settings sid hcols hrows
  have henf : enforceDataframeLimits df (limitsFromSettings settings).maxRows
      (limitsFromSettings settings).maxColumns =
      .error (.datasetTooLarge "Dataset has too many columns") := by
    unfold enforceDataframeLimits
    rw [if_neg (not_lt.mpr hrows), if_pos hcols]
  unfold datasetLoadFromBytes
  dsimp only
  rw [henf]
  exact ⟨rfl, rfl⟩

/-- The limits-test dataframe: four columns, two rows, against settings
max_rows 3, max_columns 3, max_sessions 1. -/
def w8df : DataFrame :=
  { cols := [{ name := "a", dtype := Dtype.numeric, cells := [Cell.num 1, Cell.num 1] },
             { name := "b", dtype := Dtype.numeric, cells := [Cell.num 2, Cell.num 2] },
             { name := "c", dtype := Dtype.numeric, cells := [Cell.num 3, Cell.num 3] },
             { name := "d", dtype := Dtype.numeric, cells := [Cell.num 4, Cell.num 4] }]
    nrows := 2 }

def w8settings : List (String × ℤ) :=
  [("max_rows", 3), ("max_columns", 3), ("max_sessions", 1)]

/-! ## Claim C9 (aliasing of stored dataframes)

Python dataframes are mutable objects: the model uses an explicit heap of
dataframe cells addressed by index, so that storing the caller's
reference versus storing a copy become observably different. -/

/-- The mutable object graph: dataframe cells addressed by index. -/
structure Heap where
  cells : List DataFrame
deriving DecidableEq, Repr

def readH (h : Heap) (r : ℕ) : DataFrame :=
  h.cells.getD r { cols := [], nrows := 0 }

/-- In-place mutation of the object behind a reference. -/
def writeH (h : Heap) (r : ℕ) (df : DataFrame) : Heap :=
  { cells := h.cells.set r df }

/-- Allocation of a fresh object (df.copy() materialises one). -/
def allocH (h : Heap) (df : DataFrame) : Heap × ℕ :=
  ({ cells := h.cells ++ [df] }, h.cells.length)

/-- DatasetStore.add: the token is bound to the caller's dataframe object
itself (self._items[token] = df, no copy), evicting the oldest entries
beyond max_items.  `[src core 88-94]` -/
def datasetStoreAdd (maxItems : ℕ) (items : List (String × ℕ))
    (token : String) (r : ℕ) : List (String × ℕ) :=
  let items2 := items ++ [(token, r)]
  items2.drop (items2.length - maxItems)

/-- SessionStore.create: a fresh copy of the caller's dataframe is
allocated and the session id is bound to the copy
(SessionData(dataframe=dataframe.copy())).
`[src backend/utils.py 57-63]` -/
def sessionStoreCreate (h : Heap) (sessions : List (String × ℕ))
    (sid : String) (r : ℕ) : Heap × List (String × ℕ) :=
  let a := allocH h (readH h r)
  (a.1, sessions ++ [(sid, a.2)])

theorem getD_append_length {α : Type} (l : List α) (x d : α) :
    (l ++ [x]).getD l.length d = x := by
  induction l with
  | nil => rfl
  | cons a as ih => exact ih

theorem getD_set_ne {α : Type} (l : List α) (i j : ℕ) (a d : α)
    (hij : i ≠ j) : (l.set i a).getD j d = l.getD j d := by
  induction l generalizing i j with
  | nil => rfl
  | cons x xs ih =>
    cases i with
    | zero =>
      cases j with
      | zero => exact absurd rfl hij
      | succ j => rfl
    | succ i =>
      cases j with
      | zero => rfl
      | succ j =>
        simpa using ih i j (fun hh => hij (by rw [hh]))

/-- Claim C9 counterexample: DatasetStore.add binds the token to the
caller's own dataframe object, so mutating the caller's dataframe after
add changes the dataset held by the store. -/
def c9df0 : DataFrame :=
  { cols := [{ name := "v", dtype := Dtype.numeric, cells := [Cell.num 1] }]
    nrows := 1 }

def c9df1 : DataFrame :=
  { cols := [{ name := "v", dtype := Dtype.numeric, cells := [Cell.num 2] }]
    nrows := 1 }

/-- Claim C9 counterexample: after datasetStoreAdd of the caller's
reference 0, the store maps the token to reference 0 itself; a write
through the caller's reference changes the dataframe the store reads
back, refuting that creation always stores a copy. -/
theorem c9_dataset_store_add_aliases :
    datasetStoreAdd 8 [] "tok" 0 = [("tok", 0)] ∧
    readH { cells := [c9df0] } 0 = c9df0 ∧
    readH (writeH { cells := [c9df0] } 0 c9df1) 0 = c9df1 ∧
    c9df0 ≠ c9df1 := by decide

/-- Claim C9 amended: SessionStore.create allocates a copy, so for every
valid caller-held reference the session is bound to a fresh cell holding
the dataframe's current value, and mutating the caller's dataframe
afterwards never changes the dataset held by the session store;
DatasetStore.add in the core instead aliases the caller's object (see the
counterexample). -/
theorem c9_session_create_copies :
    ∀ (h : Heap) (sessions : List (String × ℕ)) (sid : String) (r : ℕ)
      (df2 : DataFrame),
      r < h.cells.length →
      (sessionStoreCreate h sessions sid r).2 =
        sessions ++ [(sid, h.cells.length)] ∧
      readH (sessionStoreCreate h sessions sid r).1 h.cells.length = readH h r ∧
      readH (writeH (sessionStoreCreate h sessions sid r).1 r df2)
        h.cells.length = readH h r := by
  intro h sessions sid r df2 hr
  refine ⟨rfl, ?_, ?_⟩
  · unfold sessionStoreCreate allocH readH
    dsimp only
    exact getD_append_length h.cells _ _
  · unfold sessionStoreCreate allocH writeH readH
    dsimp only
    rw [getD_set_ne _ r h.cells.length _ _ (Nat.ne_of_lt hr)]
    exact getD_append_length h.cells _ _

/-- Witness for the C9 amended theorem: one caller object, mutated after
session creation; the stored copy still reads back the original value. -/
theorem c9_session_create_copies_witness :
    (sessionStoreCreate { cells := [c9df0] } [] "s" 0).2 = [("s", 1)] ∧
    readH (writeH (sessionStoreCreate { cells := [c9df0] } [] "s" 0).1 0 c9df1) 1
      = c9df0 := by
  have h := c9_session_create_copies { cells := [c9df0] } [] "s" 0 c9df1 (by decide)
  exact ⟨h.1, h.2.2⟩

/-- Witness for C8 at the limits-test scenario: 4 columns against
max_columns 3 on an empty store. -/
theorem c8_max_columns_load_rejected_witness :
    (limitsFromSettings w8settings).maxColumns < ((w8df.cols.length : ℕ) : ℤ) ∧
    (datasetLoadFromBytes ⟨64, []⟩ w8df w8settings "sid-1").2 =
      .error (.datasetTooLarge "Dataset has too many columns") ∧
    (datasetLoadFromBytes ⟨64, []⟩ w8df w8settings "sid-1").1.sessions = [] := by
  refine ⟨by decide, ?_, ?_⟩
  · exact (c8_max_columns_load_rejected ⟨64, []⟩ w8df w8settings "sid-1"
      (by decide) (by decide)).1
  · exact (c8_max_columns_load_rejected ⟨64, []⟩ w8df w8settings "sid-1"
      (by decide) (by decide)).2

end TabML
